import Mathlib

/-
Verification of the nutrition-engine pipeline: a shallow embedding of
`user_context.py`, `bio_analyzer.py`, `resource_locator.py` and
`shopping_planner.py` in Lean 4, followed by theorems about the embedded
functions.  Python floats are modelled as exact rationals (ℚ); Python's
`int(...)` truncation and banker's `round(...)` are modelled explicitly.
Python dicts are modelled as insertion-ordered association lists, and
`list(set(a + b))` is modelled as `(a ++ b).dedup` (first-occurrence order;
only the set of members is relevant to any property proved here).
Numeric string rendering inside f-strings is abstracted by `fmtQ`.
-/

namespace Nutrition

/- Batteries marks the ℚ arithmetic `@[irreducible]`; the concrete
counterexamples and witnesses below evaluate the embedded pipeline inside
proofs, which needs these operations to unfold. -/
attribute [local semireducible] Rat.ofScientific Rat.mul Rat.inv Rat.add Rat.sub

/-! ### Small Python-semantics helpers -/

/-- Python `int(x)` for a rational: truncation toward zero. -/
def pyTrunc (q : ℚ) : ℤ := if 0 ≤ q then ⌊q⌋ else -⌊-q⌋

/-- Python `round(x)` on an exact rational: round half to even. -/
def pyRoundInt (q : ℚ) : ℤ :=
  let f := ⌊q⌋
  if q - f < 1/2 then f
  else if q - f > 1/2 then f + 1
  else if f % 2 = 0 then f else f + 1

/-- Python `round(x, 2)` on an exact rational. -/
def round2 (q : ℚ) : ℚ := (pyRoundInt (q * 100) : ℚ) / 100

/-- Abstract rendering of a number inside a Python f-string. -/
def fmtQ (q : ℚ) : String := toString q

/-- Tests whether `needle` occurs as a contiguous sublist of the second argument
(Python's `needle in haystack` on strings, after `.toList`). -/
def isSubList (n : List Char) : List Char → Bool
  | [] => n.isEmpty
  | a :: t => n.isPrefixOf (a :: t) || isSubList n (a :: t).tail

/-- Python `needle in haystack` substring test on strings. -/
def containsSub (needle haystack : String) : Bool :=
  isSubList needle.toList haystack.toList

/-- Python `str.lower()` (ASCII), via the character list. -/
def pyLower (s : String) : String := String.mk (s.toList.map Char.toLower)

/-- Python `str.upper()` (ASCII), via the character list. -/
def pyUpper (s : String) : String := String.mk (s.toList.map Char.toUpper)

/-- Python `str.title()`: uppercase each letter that starts an alphabetic
run, lowercase the other letters. -/
def titleChars : List Char → Bool → List Char
  | [], _ => []
  | c :: t, prevAlpha =>
    if c.isAlpha then
      (if prevAlpha then c.toLower else c.toUpper) :: titleChars t true
    else c :: titleChars t false

/-- Python `str.title()`. -/
def pyTitle (s : String) : String := String.mk (titleChars s.toList false)

/-- Python `s[:n]` (slicing by characters). -/
def strTake (s : String) (n : ℕ) : String := String.mk (s.toList.take n)

/-- Stable insertion used by `sortByKey`: `x` is placed before the first
element whose key is not smaller than `key x`, so elements with equal keys
keep their original relative order. -/
def insertKey {α K : Type _} [LinearOrder K] (key : α → K) (x : α) :
    List α → List α
  | [] => [x]
  | y :: ys => if key y < key x then y :: insertKey key x ys else x :: y :: ys

/-- Stable sort by a key, modelling Python's stable `sorted`/`list.sort`
with `key=...` (stable sorts by the same key agree extensionally, so this
insertion sort computes exactly what Python's Timsort computes). -/
def sortByKey {α K : Type _} [LinearOrder K] (key : α → K) (l : List α) :
    List α :=
  l.foldr (insertKey key) []

/-! ### user_context.py -/

structure Financials where
  weekly_budget : ℚ
  snap_status : Bool
  wic_status : Bool
deriving DecidableEq

def Financials.has_assistance (f : Financials) : Bool :=
  f.snap_status || f.wic_status

def Financials.budget_tier (f : Financials) : String :=
  if f.weekly_budget < 50 then "very_low"
  else if f.weekly_budget < 100 then "low"
  else if f.weekly_budget < 200 then "moderate"
  else "comfortable"

structure Logistics where
  zip_code : String
  has_vehicle : Bool
  has_public_transit : Bool
  grocery_trips_per_week : ℤ
  max_travel_distance_miles : ℚ
deriving DecidableEq

structure MedicalHistory where
  family_history : List String
  previous_conditions : List String
  current_symptoms : List String
  known_allergies : List String
  medications : List String
deriving DecidableEq

structure LabResults where
  mthfr_variant : Option String
  comt_variant : Option String
  vitamin_b12_level : Option ℚ
  vitamin_d_level : Option ℚ
  iron_level : Option ℚ
  ferritin_level : Option ℚ
  crp_level : Option ℚ
  homocysteine_level : Option ℚ
  glucose_fasting : Option ℚ
  omega3_index : Option ℚ
deriving DecidableEq

structure UserContext where
  user_id : String
  name : String
  financials : Financials
  logistics : Logistics
  medical : MedicalHistory
  lab_results : Option LabResults
deriving DecidableEq

/-! ### bio_analyzer.py : data model and reference tables -/

structure NutrientNeed where
  nutrient : String
  priority : ℤ
  reason : String
  related_markers : List String
  food_sources : List String
deriving DecidableEq

structure NutrientPriorityList where
  user_id : String
  needs : List NutrientNeed
  warnings : List String
deriving DecidableEq

/-- The `LAB_REFERENCE_RANGES` table (only the numeric thresholds; units are
documentation).  Ferritin and omega-3 rows are present in the source table
but never read by any analyzer. -/
def ref_b12_low : ℚ := 300
def ref_b12_optimal_low : ℚ := 500
def ref_b12_optimal_high : ℚ := 900
def ref_d_low : ℚ := 20
def ref_d_optimal_low : ℚ := 40
def ref_d_optimal_high : ℚ := 60
def ref_iron_low : ℚ := 60
def ref_iron_optimal_low : ℚ := 80
def ref_iron_optimal_high : ℚ := 170
def ref_ferritin_low : ℚ := 30
def ref_ferritin_optimal_low : ℚ := 50
def ref_ferritin_optimal_high : ℚ := 150
def ref_crp_optimal_high : ℚ := 1
def ref_crp_elevated : ℚ := 3
def ref_crp_high : ℚ := 10
def ref_homocysteine_optimal_high : ℚ := 7
def ref_homocysteine_elevated : ℚ := 12
def ref_homocysteine_high : ℚ := 15
def ref_glucose_optimal_high : ℚ := 100
def ref_glucose_prediabetic : ℚ := 125
def ref_glucose_diabetic : ℚ := 126
def ref_omega3_low : ℚ := 4
def ref_omega3_optimal_low : ℚ := 8
def ref_omega3_optimal_high : ℚ := 12

/-- The `NUTRIENT_FOOD_SOURCES` dictionary. -/
def NUTRIENT_FOOD_SOURCES (nutrient : String) : List String :=
  if nutrient = "Vitamin B12" then
    ["eggs", "fortified cereals", "nutritional yeast", "sardines",
     "beef liver", "clams", "fortified plant milk"]
  else if nutrient = "Methylfolate" then
    ["spinach", "lentils", "asparagus", "broccoli", "avocado",
     "black-eyed peas", "brussels sprouts", "romaine lettuce"]
  else if nutrient = "Vitamin D" then
    ["fortified milk", "egg yolks", "salmon", "sardines",
     "fortified orange juice", "mushrooms (UV-exposed)"]
  else if nutrient = "Iron" then
    ["spinach", "lentils", "chickpeas", "beef", "fortified cereals",
     "pumpkin seeds", "quinoa", "dark chocolate"]
  else if nutrient = "Omega-3 Fatty Acids" then
    ["salmon", "sardines", "walnuts", "flaxseed", "chia seeds",
     "mackerel", "hemp seeds"]
  else if nutrient = "Anti-inflammatory Foods" then
    ["turmeric", "ginger", "berries", "leafy greens", "fatty fish",
     "olive oil", "tomatoes", "nuts", "green tea"]
  else if nutrient = "Magnesium" then
    ["spinach", "pumpkin seeds", "black beans", "almonds",
     "avocado", "dark chocolate", "quinoa"]
  else if nutrient = "Fiber" then
    ["oats", "beans", "lentils", "berries", "broccoli",
     "apples", "whole grains", "chia seeds"]
  else if nutrient = "Antioxidants" then
    ["berries", "dark leafy greens", "pecans", "artichokes",
     "beets", "red cabbage", "dark chocolate"]
  else if nutrient = "Chromium" then
    ["broccoli", "grape juice", "whole grains", "beef",
     "green beans", "potatoes"]
  else []

/-! ### bio_analyzer.py : analyzer rules -/

def analyze_methylation_markers (lab : LabResults) : List NutrientNeed :=
  let mthfrNeeds :=
    match lab.mthfr_variant with
    | none => []
    | some v =>
      let variant := pyUpper v
      if variant = "C677T" ∨ variant = "COMPOUND" ∨ variant = "HOMOZYGOUS" then
        [{ nutrient := "Methylfolate", priority := 1,
           reason := "MTHFR " ++ variant ++ " variant detected - reduced ability to convert folic acid to active methylfolate",
           related_markers := ["MTHFR", "homocysteine"],
           food_sources := NUTRIENT_FOOD_SOURCES "Methylfolate" },
         { nutrient := "Vitamin B12", priority := 1,
           reason := "MTHFR " ++ variant ++ " requires adequate B12 for proper methylation cycle function",
           related_markers := ["MTHFR", "methylation"],
           food_sources := NUTRIENT_FOOD_SOURCES "Vitamin B12" }]
      else if variant = "A1298C" then
        [{ nutrient := "Methylfolate", priority := 2,
           reason := "MTHFR A1298C variant - moderately reduced folate metabolism",
           related_markers := ["MTHFR", "BH4"],
           food_sources := NUTRIENT_FOOD_SOURCES "Methylfolate" }]
      else []
  let comtNeeds :=
    match lab.comt_variant with
    | none => []
    | some v =>
      if pyLower v = "slow" then
        [{ nutrient := "Magnesium", priority := 2,
           reason := "Slow COMT variant - magnesium supports stress response and catecholamine metabolism",
           related_markers := ["COMT", "catecholamines"],
           food_sources := NUTRIENT_FOOD_SOURCES "Magnesium" }]
      else []
  mthfrNeeds ++ comtNeeds

/-- The vitamin-B12 branch of `analyze_vitamin_levels`. -/
def b12Needs (lvl : Option ℚ) : List NutrientNeed :=
  match lvl with
  | none => []
  | some level =>
    if level < ref_b12_low then
      [{ nutrient := "Vitamin B12", priority := 1,
         reason := "B12 level (" ++ fmtQ level ++ " pg/mL) is deficient - urgent supplementation recommended",
         related_markers := ["B12", "MCV", "homocysteine"],
         food_sources := NUTRIENT_FOOD_SOURCES "Vitamin B12" }]
    else if level < ref_b12_optimal_low then
      [{ nutrient := "Vitamin B12", priority := 2,
         reason := "B12 level (" ++ fmtQ level ++ " pg/mL) is suboptimal - dietary increase recommended",
         related_markers := ["B12"],
         food_sources := NUTRIENT_FOOD_SOURCES "Vitamin B12" }]
    else []

/-- The vitamin-D branch of `analyze_vitamin_levels`. -/
def vitDNeeds (lvl : Option ℚ) : List NutrientNeed :=
  match lvl with
  | none => []
  | some level =>
    if level < ref_d_low then
      [{ nutrient := "Vitamin D", priority := 1,
         reason := "Vitamin D level (" ++ fmtQ level ++ " ng/mL) is deficient - significant health impact",
         related_markers := ["25-OH Vitamin D", "calcium", "PTH"],
         food_sources := NUTRIENT_FOOD_SOURCES "Vitamin D" }]
    else if level < ref_d_optimal_low then
      [{ nutrient := "Vitamin D", priority := 2,
         reason := "Vitamin D level (" ++ fmtQ level ++ " ng/mL) is insufficient",
         related_markers := ["25-OH Vitamin D"],
         food_sources := NUTRIENT_FOOD_SOURCES "Vitamin D" }]
    else []

/-- The iron branch of `analyze_vitamin_levels`.  Note: the source has a
single `if level < ref["low"]` with no branch for the insufficient band. -/
def ironNeeds (lvl : Option ℚ) : List NutrientNeed :=
  match lvl with
  | none => []
  | some level =>
    if level < ref_iron_low then
      [{ nutrient := "Iron", priority := 1,
         reason := "Iron level (" ++ fmtQ level ++ " mcg/dL) is low - may cause fatigue and anemia",
         related_markers := ["serum iron", "ferritin", "TIBC"],
         food_sources := NUTRIENT_FOOD_SOURCES "Iron" }]
    else []

def analyze_vitamin_levels (lab : LabResults) : List NutrientNeed :=
  b12Needs lab.vitamin_b12_level ++ vitDNeeds lab.vitamin_d_level ++
    ironNeeds lab.iron_level

/-- The CRP branch of `analyze_inflammation_markers`. -/
def crpNeeds (lvl : Option ℚ) : List NutrientNeed :=
  match lvl with
  | none => []
  | some level =>
    if level > ref_crp_elevated then
      let priority : ℤ := if level > ref_crp_high then 1 else 2
      [{ nutrient := "Anti-inflammatory Foods", priority := priority,
         reason := "CRP level (" ++ fmtQ level ++ " mg/L) indicates systemic inflammation",
         related_markers := ["CRP", "ESR", "inflammation"],
         food_sources := NUTRIENT_FOOD_SOURCES "Anti-inflammatory Foods" },
       { nutrient := "Omega-3 Fatty Acids", priority := priority,
         reason := "Omega-3s help reduce inflammation markers like CRP (" ++ fmtQ level ++ " mg/L)",
         related_markers := ["CRP", "omega-3 index"],
         food_sources := NUTRIENT_FOOD_SOURCES "Omega-3 Fatty Acids" }]
    else []

/-- The homocysteine branch of `analyze_inflammation_markers`. -/
def homocysteineNeeds (lvl : Option ℚ) : List NutrientNeed :=
  match lvl with
  | none => []
  | some level =>
    if level > ref_homocysteine_elevated then
      let priority : ℤ := if level > ref_homocysteine_high then 1 else 2
      [{ nutrient := "Methylfolate", priority := priority,
         reason := "Homocysteine (" ++ fmtQ level ++ " umol/L) is elevated - B vitamins help lower it",
         related_markers := ["homocysteine", "cardiovascular risk"],
         food_sources := NUTRIENT_FOOD_SOURCES "Methylfolate" }]
    else []

def analyze_inflammation_markers (lab : LabResults) : List NutrientNeed :=
  crpNeeds lab.crp_level ++ homocysteineNeeds lab.homocysteine_level

def analyze_metabolic_markers (lab : LabResults) : List NutrientNeed :=
  match lab.glucose_fasting with
  | none => []
  | some level =>
    if level > ref_glucose_optimal_high then
      let priority : ℤ := if level < ref_glucose_prediabetic then 2 else 1
      [{ nutrient := "Fiber", priority := priority,
         reason := "Fasting glucose (" ++ fmtQ level ++ " mg/dL) elevated - fiber helps regulate blood sugar",
         related_markers := ["glucose", "HbA1c", "insulin"],
         food_sources := NUTRIENT_FOOD_SOURCES "Fiber" },
       { nutrient := "Chromium", priority := priority + 1,
         reason := "Chromium supports glucose metabolism with elevated fasting glucose (" ++ fmtQ level ++ ")",
         related_markers := ["glucose", "insulin sensitivity"],
         food_sources := NUTRIENT_FOOD_SOURCES "Chromium" }]
    else []

/-- The `symptom_nutrient_map` of `analyze_symptoms`, in source order. -/
def symptomEntries : List (String × List NutrientNeed) :=
  [("fatigue",
    [{ nutrient := "Iron", priority := 3,
       reason := "Fatigue reported - iron deficiency is a common cause",
       related_markers := ["symptoms: fatigue"],
       food_sources := NUTRIENT_FOOD_SOURCES "Iron" },
     { nutrient := "Vitamin B12", priority := 3,
       reason := "Fatigue reported - B12 supports energy metabolism",
       related_markers := ["symptoms: fatigue"],
       food_sources := NUTRIENT_FOOD_SOURCES "Vitamin B12" }]),
   ("brain_fog",
    [{ nutrient := "Omega-3 Fatty Acids", priority := 3,
       reason := "Brain fog reported - omega-3s support cognitive function",
       related_markers := ["symptoms: brain fog"],
       food_sources := NUTRIENT_FOOD_SOURCES "Omega-3 Fatty Acids" }]),
   ("joint_pain",
    [{ nutrient := "Anti-inflammatory Foods", priority := 3,
       reason := "Joint pain reported - anti-inflammatory foods may help",
       related_markers := ["symptoms: joint pain"],
       food_sources := NUTRIENT_FOOD_SOURCES "Anti-inflammatory Foods" }]),
   ("anxiety",
    [{ nutrient := "Magnesium", priority := 3,
       reason := "Anxiety reported - magnesium supports nervous system calm",
       related_markers := ["symptoms: anxiety"],
       food_sources := NUTRIENT_FOOD_SOURCES "Magnesium" }]),
   ("weak_immunity",
    [{ nutrient := "Vitamin D", priority := 3,
       reason := "Immune concerns - Vitamin D is crucial for immune function",
       related_markers := ["symptoms: immunity"],
       food_sources := NUTRIENT_FOOD_SOURCES "Vitamin D" }])]

def analyze_symptoms (medical : MedicalHistory) : List NutrientNeed :=
  let symptoms := medical.current_symptoms.map pyLower
  symptoms.flatMap fun symptom =>
    symptomEntries.flatMap fun p =>
      if containsSub p.1 symptom then p.2 else []

def analyze_family_history (medical : MedicalHistory) : List NutrientNeed :=
  let history := medical.family_history.map pyLower
  (if history.any (fun h => containsSub "diabetes" h) then
    [{ nutrient := "Fiber", priority := 4,
       reason := "Family history of diabetes - fiber helps maintain healthy blood sugar",
       related_markers := ["family history: diabetes"],
       food_sources := NUTRIENT_FOOD_SOURCES "Fiber" },
     { nutrient := "Chromium", priority := 4,
       reason := "Family history of diabetes - chromium supports glucose metabolism",
       related_markers := ["family history: diabetes"],
       food_sources := NUTRIENT_FOOD_SOURCES "Chromium" }]
  else []) ++
  (if history.any (fun h => containsSub "heart" h || containsSub "cardiovascular" h) then
    [{ nutrient := "Omega-3 Fatty Acids", priority := 4,
       reason := "Family history of heart disease - omega-3s support cardiovascular health",
       related_markers := ["family history: cardiovascular"],
       food_sources := NUTRIENT_FOOD_SOURCES "Omega-3 Fatty Acids" }]
  else []) ++
  (if history.any (fun h => containsSub "cancer" h) then
    [{ nutrient := "Antioxidants", priority := 4,
       reason := "Family history considerations - antioxidants support cellular health",
       related_markers := ["family history: cancer"],
       food_sources := NUTRIENT_FOOD_SOURCES "Antioxidants" }]
  else [])

/-! ### bio_analyzer.py : consolidation and the top-level analyzer -/

/-- One step of `consolidate_nutrient_needs`, acting on the insertion-ordered
association map (represented as the list of its values; keys are the
`nutrient` fields, which the invariant keeps unique). -/
def consolidateStep (m : List NutrientNeed) (need : NutrientNeed) :
    List NutrientNeed :=
  if m.any (fun e => e.nutrient = need.nutrient) then
    m.map fun e =>
      if e.nutrient = need.nutrient then
        if need.priority < e.priority then
          { nutrient := need.nutrient, priority := need.priority,
            reason := need.reason ++ "; Also: " ++ e.reason,
            related_markers := (e.related_markers ++ need.related_markers).dedup,
            food_sources := need.food_sources }
        else
          { e with related_markers := (e.related_markers ++ need.related_markers).dedup }
      else e
  else m ++ [need]

def consolidate_nutrient_needs (all_needs : List NutrientNeed) :
    List NutrientNeed :=
  all_needs.foldl consolidateStep []

/-- Lab-derived needs of `analyze_lab_data` (the four analyzer calls inside
the `if user_context.lab_results:` branch). -/
def labNeeds (labOpt : Option LabResults) : List NutrientNeed :=
  match labOpt with
  | some lab =>
    analyze_methylation_markers lab ++ analyze_vitamin_levels lab ++
      analyze_inflammation_markers lab ++ analyze_metabolic_markers lab
  | none => []

def labWarnings (labOpt : Option LabResults) : List String :=
  match labOpt with
  | some _ => []
  | none => ["No lab results provided - recommendations based on symptoms and history only"]

/-- The full pre-consolidation need list of `analyze_lab_data`, after the
allergy filtering of each need's food sources. -/
def collectNeeds (ctx : UserContext) : List NutrientNeed :=
  let all_needs := labNeeds ctx.lab_results ++ analyze_symptoms ctx.medical ++
    analyze_family_history ctx.medical
  let allergies := ctx.medical.known_allergies.map pyLower
  all_needs.map fun need =>
    { need with
      food_sources := need.food_sources.filter
        (fun src => !(allergies.any (fun a => containsSub a (pyLower src)))) }

def analyze_lab_data (ctx : UserContext) : NutrientPriorityList :=
  let filtered := collectNeeds ctx
  let warnings := labWarnings ctx.lab_results ++
    (filtered.filter (fun need => need.food_sources.isEmpty)).map
      (fun need => "Limited food sources for " ++ need.nutrient ++ " due to allergies")
  let consolidated :=
    sortByKey (fun n => n.priority) (consolidate_nutrient_needs filtered)
  { user_id := ctx.user_id, needs := consolidated, warnings := warnings }

def get_top_priorities (pl : NutrientPriorityList) (n : ℕ) :
    List NutrientNeed :=
  (sortByKey (fun x => x.priority) pl.needs).take n

/-! ### resource_locator.py -/

inductive StoreType where
  | GROCERY | FOOD_PANTRY | FARMERS_MARKET | DISCOUNT | SPECIALTY
deriving DecidableEq

inductive InventoryLevel where
  | HIGH | MEDIUM | LOW
deriving DecidableEq

structure Store where
  name : String
  store_type : StoreType
  distance_miles : ℚ
  snap_accepted : Bool
  wic_accepted : Bool
  inventory_level : InventoryLevel
  price_tier : ℤ
  specialty_items : List String
  hours : String
deriving DecidableEq

structure TravelFeasibility where
  store : Store
  is_accessible : Bool
  travel_method : String
  estimated_time_minutes : ℤ
  accessibility_score : ℚ
  notes : List String
deriving DecidableEq

structure ResourceMap where
  user_zip : String
  accessible_stores : List TravelFeasibility
  food_pantries : List TravelFeasibility
  snap_stores : List TravelFeasibility
  all_stores : List Store
deriving DecidableEq

/-- The `SYNTHETIC_STORES_DATABASE` default entry. -/
def defaultStores : List Store :=
  [{ name := "SaveMart Grocery", store_type := .GROCERY, distance_miles := (mkRat 6 5),
     snap_accepted := true, wic_accepted := true, inventory_level := .HIGH,
     price_tier := 3, specialty_items := ["organic produce", "gluten-free"],
     hours := "7am-10pm" },
   { name := "Community Food Pantry", store_type := .FOOD_PANTRY, distance_miles := (mkRat 4 5),
     snap_accepted := false, wic_accepted := false, inventory_level := .MEDIUM,
     price_tier := 1, specialty_items := ["canned goods", "bread", "produce"],
     hours := "Mon/Wed/Fri 10am-2pm" },
   { name := "Budget Foods", store_type := .DISCOUNT, distance_miles := (mkRat 5 2),
     snap_accepted := true, wic_accepted := false, inventory_level := .HIGH,
     price_tier := 1, specialty_items := ["bulk items", "frozen foods"],
     hours := "8am-9pm" },
   { name := "Fresh Farmers Market", store_type := .FARMERS_MARKET, distance_miles := (mkRat 9 5),
     snap_accepted := true, wic_accepted := true, inventory_level := .MEDIUM,
     price_tier := 2, specialty_items := ["local produce", "eggs", "honey"],
     hours := "Sat 8am-1pm" },
   { name := "Whole Health Foods", store_type := .SPECIALTY, distance_miles := (mkRat 16 5),
     snap_accepted := false, wic_accepted := false, inventory_level := .HIGH,
     price_tier := 5, specialty_items := ["supplements", "organic", "specialty diet"],
     hours := "9am-8pm" },
   { name := "Dollar General", store_type := .DISCOUNT, distance_miles := (mkRat 1 2),
     snap_accepted := true, wic_accepted := false, inventory_level := .LOW,
     price_tier := 2, specialty_items := ["canned goods", "snacks", "basic staples"],
     hours := "8am-10pm" },
   { name := "St. Mary\x27s Food Bank", store_type := .FOOD_PANTRY, distance_miles := (mkRat 21 10),
     snap_accepted := false, wic_accepted := false, inventory_level := .HIGH,
     price_tier := 1, specialty_items := ["fresh produce", "meat", "dairy"],
     hours := "Tue/Thu 9am-3pm" },
   { name := "ALDI", store_type := .DISCOUNT, distance_miles := 4,
     snap_accepted := true, wic_accepted := true, inventory_level := .HIGH,
     price_tier := 1, specialty_items := ["produce", "dairy", "frozen", "specialty imports"],
     hours := "9am-8pm" },
   { name := "Target", store_type := .GROCERY, distance_miles := (mkRat 11 2),
     snap_accepted := true, wic_accepted := true, inventory_level := .HIGH,
     price_tier := 3, specialty_items := ["organic", "fresh produce", "supplements"],
     hours := "8am-10pm" },
   { name := "Neighborhood Co-op", store_type := .SPECIALTY, distance_miles := (mkRat 3 2),
     snap_accepted := true, wic_accepted := false, inventory_level := .MEDIUM,
     price_tier := 4, specialty_items := ["local", "organic", "bulk bins", "specialty"],
     hours := "10am-7pm" }]

/-- The zip-specific entries of `SYNTHETIC_STORES_DATABASE`. -/
def zipStores (zipKey : String) : List Store :=
  if zipKey = "303" then
    [{ name := "King Soopers", store_type := .GROCERY, distance_miles := 1,
       snap_accepted := true, wic_accepted := true, inventory_level := .HIGH,
       price_tier := 3, specialty_items := ["organic", "deli", "pharmacy"],
       hours := "6am-11pm" }]
  else if zipKey = "300" then
    [{ name := "Publix", store_type := .GROCERY, distance_miles := (mkRat 13 10),
       snap_accepted := true, wic_accepted := true, inventory_level := .HIGH,
       price_tier := 3, specialty_items := ["deli", "bakery", "organic"],
       hours := "7am-10pm" }]
  else []

def get_stores_for_zip (zip_code : String) : List Store :=
  let zipKey :=
    if zip_code.toList.length ≥ 3 then String.mk (zip_code.toList.take 3)
    else zip_code
  defaultStores ++ zipStores zipKey

def speedFor (method : String) : ℚ :=
  if method = "walk" then 3
  else if method = "transit" then 12
  else if method = "drive" then 25
  else 3

def calculate_travel_time (distance_miles : ℚ) (method : String) : ℤ :=
  let speed := speedFor method
  let base_time := distance_miles / speed * 60
  let base_time :=
    if method = "transit" then base_time + 10
    else if method = "walk" then base_time + 5
    else base_time
  pyTrunc base_time

/-- The travel-method selection at the top of `calculate_travel_feasibility`:
the chosen method and the matching `max_practical_distance`. -/
def preferredMethod (lg : Logistics) : String × ℚ :=
  if lg.has_vehicle then ("drive", 15)
  else if lg.has_public_transit then ("transit", 8)
  else ("walk", 2)

/-- The accessibility check plus the alternative-method fallback of
`calculate_travel_feasibility`: final travel method, the pre-override
accessibility verdict, and the notes those lines append. -/
def fallbackCheck (store : Store) (lg : Logistics) :
    String × Bool × List String :=
  if store.distance_miles ≤ lg.max_travel_distance_miles then
    ((preferredMethod lg).1, true, [])
  else if store.distance_miles ≤ 2 then ("walk", true, ["Walking distance"])
  else if store.distance_miles ≤ 8 ∧ lg.has_public_transit = true then
    ("transit", true, ["Accessible via public transit"])
  else ((preferredMethod lg).1, false, [])

def calculate_travel_feasibility (store : Store) (lg : Logistics) :
    TravelFeasibility :=
  let max_practical_distance := (preferredMethod lg).2
  let fb := fallbackCheck store lg
  let travel_method := fb.1
  let travel_time := calculate_travel_time store.distance_miles travel_method
  let distance_score : ℚ :=
    max 0 (1 - store.distance_miles / max_practical_distance)
  let time_score : ℚ := max 0 (1 - (travel_time : ℚ) / 60)
  let inventory_score : ℚ :=
    match store.inventory_level with
    | .HIGH => 1 | .MEDIUM => (mkRat 7 10) | .LOW => (mkRat 2 5)
  let accessibility_score :=
    distance_score * (mkRat 2 5) + time_score * (mkRat 3 10) + inventory_score * (mkRat 3 10)
  let notes := fb.2.2 ++
    (if store.store_type = StoreType.FOOD_PANTRY then ["FREE - Food pantry"] else []) ++
    (if store.distance_miles ≤ 1 then ["Very close"] else []) ++
    (if travel_time > 45 then ["Long travel time"] else [])
  let is_accessible :=
    if travel_time > 45 then fb.2.1 && decide (lg.grocery_trips_per_week ≥ 2)
    else fb.2.1
  { store := store, is_accessible := is_accessible,
    travel_method := travel_method, estimated_time_minutes := travel_time,
    accessibility_score := round2 accessibility_score, notes := notes }

/-- Sort key of `accessible_stores`: `(-score, distance)` ascending,
lexicographically. -/
def accessKey (tf : TravelFeasibility) : ℚ ×ₗ ℚ :=
  toLex (-tf.accessibility_score, tf.store.distance_miles)

/-- Sort key used on `snap_stores` when the user has assistance:
`(price_tier, distance)` ascending, lexicographically. -/
def snapKey (tf : TravelFeasibility) : ℤ ×ₗ ℚ :=
  toLex (tf.store.price_tier, tf.store.distance_miles)

def resource_locator (ctx : UserContext) : ResourceMap :=
  let all_stores := get_stores_for_zip ctx.logistics.zip_code
  let all_feasibility :=
    all_stores.map fun store => calculate_travel_feasibility store ctx.logistics
  let accessible_stores :=
    sortByKey accessKey (all_feasibility.filter (fun f => f.is_accessible))
  let food_pantries :=
    accessible_stores.filter (fun f => f.store.store_type = StoreType.FOOD_PANTRY)
  let snap_stores := accessible_stores.filter (fun f => f.store.snap_accepted)
  let snap_stores :=
    if ctx.financials.has_assistance then sortByKey snapKey snap_stores
    else snap_stores
  { user_zip := ctx.logistics.zip_code, accessible_stores := accessible_stores,
    food_pantries := food_pantries, snap_stores := snap_stores,
    all_stores := all_stores }

/-! ### shopping_planner.py : data model and catalogs -/

inductive ShoppingPriority where
  | CRITICAL | HIGH | MODERATE | OPTIONAL
deriving DecidableEq

def ShoppingPriority.value : ShoppingPriority → ℤ
  | .CRITICAL => 1 | .HIGH => 2 | .MODERATE => 3 | .OPTIONAL => 4

structure FoodItem where
  name : String
  category : String
  price_estimate : ℚ
  snap_eligible : Bool
  wic_eligible : Bool
  nutrients_provided : List String
  serving_size : String
  shelf_life_days : ℤ
deriving DecidableEq

structure ShoppingListItem where
  food : FoodItem
  quantity : ℤ
  priority : ShoppingPriority
  reason : String
  suggested_store : Option String
  estimated_cost : ℚ
  nutrients_addressed : List String
deriving DecidableEq

structure ShoppingList where
  user_id : String
  items : List ShoppingListItem
  total_estimated_cost : ℚ
  budget_remaining : ℚ
  pantry_items : List ShoppingListItem
  store_visits : List (String × List ShoppingListItem)
  reasoning_log : List String
deriving DecidableEq

/-- The `FOOD_DATABASE`, as a key/value list in dict insertion order. -/
def FOOD_DATABASE : List (String × FoodItem) :=
  [("spinach", ⟨"Spinach (fresh bunch)", "produce", (mkRat 5 2), true, true,
      ["Iron", "Methylfolate", "Magnesium", "Anti-inflammatory Foods"], "1 bunch", 5⟩),
   ("spinach_frozen", ⟨"Spinach (frozen bag)", "frozen", (mkRat 3 2), true, false,
      ["Iron", "Methylfolate", "Magnesium"], "16 oz bag", 180⟩),
   ("broccoli", ⟨"Broccoli", "produce", (mkRat 7 4), true, true,
      ["Fiber", "Chromium", "Anti-inflammatory Foods"], "1 head", 7⟩),
   ("kale", ⟨"Kale", "produce", 2, true, false,
      ["Iron", "Antioxidants", "Anti-inflammatory Foods"], "1 bunch", 5⟩),
   ("lentils_dry", ⟨"Lentils (dry)", "dry goods", (mkRat 3 2), true, false,
      ["Iron", "Fiber", "Methylfolate"], "1 lb bag", 365⟩),
   ("black_beans_canned", ⟨"Black Beans (canned)", "canned", (mkRat 89 100), true, false,
      ["Fiber", "Iron", "Magnesium"], "15 oz can", 730⟩),
   ("chickpeas_canned", ⟨"Chickpeas (canned)", "canned", 1, true, false,
      ["Iron", "Fiber"], "15 oz can", 730⟩),
   ("eggs", ⟨"Eggs (dozen)", "dairy", (mkRat 7 2), true, true,
      ["Vitamin B12", "Vitamin D"], "12 eggs", 21⟩),
   ("sardines_canned", ⟨"Sardines (canned)", "canned", 2, true, false,
      ["Vitamin B12", "Vitamin D", "Omega-3 Fatty Acids"], "4 oz can", 1095⟩),
   ("salmon_canned", ⟨"Salmon (canned)", "canned", (mkRat 7 2), true, false,
      ["Vitamin B12", "Vitamin D", "Omega-3 Fatty Acids"], "6 oz can", 1095⟩),
   ("chicken_thighs", ⟨"Chicken Thighs", "meat", 4, true, false,
      ["Vitamin B12", "Iron"], "1 lb", 2⟩),
   ("beef_liver", ⟨"Beef Liver", "meat", 3, true, false,
      ["Vitamin B12", "Iron", "Vitamin D"], "1 lb", 2⟩),
   ("oats", ⟨"Oats (rolled)", "dry goods", (mkRat 5 2), true, true,
      ["Fiber", "Magnesium"], "42 oz container", 365⟩),
   ("fortified_cereal", ⟨"Fortified Cereal", "dry goods", 3, true, true,
      ["Vitamin B12", "Iron", "Methylfolate"], "12 oz box", 180⟩),
   ("quinoa", ⟨"Quinoa", "dry goods", 5, true, false,
      ["Iron", "Magnesium", "Fiber"], "16 oz bag", 365⟩),
   ("walnuts", ⟨"Walnuts", "nuts", 6, true, false,
      ["Omega-3 Fatty Acids", "Magnesium"], "8 oz bag", 180⟩),
   ("flaxseed", ⟨"Ground Flaxseed", "nuts", 4, true, false,
      ["Omega-3 Fatty Acids", "Fiber"], "16 oz bag", 180⟩),
   ("chia_seeds", ⟨"Chia Seeds", "nuts", (mkRat 11 2), true, false,
      ["Omega-3 Fatty Acids", "Fiber"], "12 oz bag", 365⟩),
   ("pumpkin_seeds", ⟨"Pumpkin Seeds", "nuts", (mkRat 9 2), true, false,
      ["Iron", "Magnesium"], "8 oz bag", 180⟩),
   ("turmeric", ⟨"Turmeric (ground)", "spices", (mkRat 7 2), true, false,
      ["Anti-inflammatory Foods"], "2 oz jar", 730⟩),
   ("ginger_root", ⟨"Ginger Root", "produce", 1, true, false,
      ["Anti-inflammatory Foods"], "1 piece", 21⟩),
   ("berries_frozen", ⟨"Mixed Berries (frozen)", "frozen", (mkRat 7 2), true, true,
      ["Antioxidants", "Anti-inflammatory Foods", "Fiber"], "16 oz bag", 365⟩),
   ("olive_oil", ⟨"Olive Oil (extra virgin)", "oils", 7, true, false,
      ["Anti-inflammatory Foods", "Omega-3 Fatty Acids"], "16 oz bottle", 730⟩),
   ("fortified_milk", ⟨"Fortified Milk (or plant milk)", "dairy", 3, true, true,
      ["Vitamin D", "Vitamin B12"], "half gallon", 10⟩),
   ("yogurt", ⟨"Yogurt", "dairy", 4, true, true,
      ["Vitamin B12", "Vitamin D"], "32 oz container", 14⟩),
   ("brown_rice", ⟨"Brown Rice", "dry goods", 2, true, false,
      ["Fiber", "Magnesium"], "2 lb bag", 365⟩),
   ("peanut_butter", ⟨"Peanut Butter", "dry goods", 3, true, true,
      ["Magnesium"], "16 oz jar", 180⟩),
   ("bananas", ⟨"Bananas", "produce", (mkRat 1 2), true, true,
      ["Magnesium", "Fiber"], "per lb", 5⟩)]

def BUDGET_ALTERNATIVES : List (String × String) :=
  [("salmon_canned", "sardines_canned"),
   ("quinoa", "brown_rice"),
   ("walnuts", "flaxseed"),
   ("chia_seeds", "flaxseed"),
   ("kale", "spinach_frozen"),
   ("spinach", "spinach_frozen"),
   ("chicken_thighs", "eggs")]

def get_foods_for_nutrient (nutrient : String) : List FoodItem :=
  sortByKey (fun f => f.price_estimate)
    ((FOOD_DATABASE.map Prod.snd).filter
      (fun food => food.nutrients_provided.contains nutrient))

def calculate_priority (nutrient_priority : ℤ) (_budget_tier : String) :
    ShoppingPriority :=
  if nutrient_priority = 1 then .CRITICAL
  else if nutrient_priority = 2 then .HIGH
  else if nutrient_priority ≤ 3 then .MODERATE
  else .OPTIONAL

/-! ### shopping_planner.py : generate_shopping_list -/

/-- Running state of the `generate_shopping_list` main loops: the items
selected so far, the remaining budget, and the local `reasoning` list. -/
structure PlanState where
  items : List ShoppingListItem
  remaining : ℚ
  reasoning : List String
deriving DecidableEq

/-- The budget-alternative substitution applied to a candidate inside the
selection loop (lines 256-261 of the source). -/
def applyBudgetAlt (budget_tier : String) (food : FoodItem) : FoodItem :=
  let food_key :=
    (FOOD_DATABASE.filter (fun kv => kv.2.name = food.name)).map Prod.fst
  if (budget_tier = "very_low" ∨ budget_tier = "low") ∧ food_key ≠ [] then
    match food_key.head? with
    | none => food
    | some k =>
      match BUDGET_ALTERNATIVES.lookup k with
      | none => food
      | some alt_key =>
        match FOOD_DATABASE.lookup alt_key with
        | none => food
        | some alt => alt
  else food

/-- The `for food in safe_options:` selection loop (lines 255-270). -/
def selectFood (budget_tier : String) (snap : Bool) (remaining : ℚ) :
    List FoodItem → Option FoodItem
  | [] => none
  | f :: rest =>
    let food := applyBudgetAlt budget_tier f
    if food.price_estimate ≤ remaining then
      if snap && !food.snap_eligible then selectFood budget_tier snap remaining rest
      else some food
    else selectFood budget_tier snap remaining rest

/-- The allergy filter over candidate foods (lines 244-247); `allergies`
is already lowercased by the caller. -/
def safeOptions (allergies : List String) (foods : List FoodItem) :
    List FoodItem :=
  foods.filter (fun f => !(allergies.any (fun a => containsSub a (pyLower f.name))))

/-- The `best_store` search (lines 277-283). -/
def findBestStore (snap : Bool) : List TravelFeasibility → Option String
  | [] => none
  | tf :: rest =>
    if snap && !tf.store.snap_accepted then findBestStore snap rest
    else if tf.store.inventory_level ≠ InventoryLevel.LOW then some tf.store.name
    else findBestStore snap rest

/-- Appends `nutrient` to the `nutrients_addressed` of the first item whose
food name is `nm`, if not already present (lines 317-322). -/
def updateFirst : List ShoppingListItem → String → String →
    List ShoppingListItem
  | [], _, _ => []
  | ex :: rest, nm, nutrient =>
    if ex.food.name = nm then
      (if nutrient ∈ ex.nutrients_addressed then ex
       else { ex with nutrients_addressed := ex.nutrients_addressed ++ [nutrient] }) :: rest
    else ex :: updateFirst rest nm nutrient

/-- The food selected for one need by the Phase-2 loop body, or `none` when
the loop body skips the need (budget exhausted, no candidate foods, or all
candidates conflicting with allergies).  This is the selection slice
(lines 231-274) of the loop body embodied in `processNeed`. -/
def selectedFoodFor (ctx : UserContext) (budget_tier : String)
    (remaining : ℚ) (need : NutrientNeed) : Option FoodItem :=
  if remaining ≤ 0 then none
  else
    let food_options := get_foods_for_nutrient need.nutrient
    if food_options.isEmpty then none
    else
      let allergies := ctx.medical.known_allergies.map pyLower
      match safeOptions allergies food_options with
      | [] => none
      | s0 :: srest =>
        some ((selectFood budget_tier ctx.financials.snap_status remaining
          (s0 :: srest)).getD s0)

/-- The Phase-2 loop body of `generate_shopping_list` (lines 231-322) for a
single need. -/
def processNeed (ctx : UserContext) (rm : ResourceMap) (budget_tier : String)
    (st : PlanState) (need : NutrientNeed) : PlanState :=
  if st.remaining ≤ 0 then
    { st with reasoning := st.reasoning ++
        ["BUDGET EXHAUSTED: Skipping " ++ need.nutrient] }
  else
    let food_options := get_foods_for_nutrient need.nutrient
    if food_options.isEmpty then
      { st with reasoning := st.reasoning ++
          ["No foods found for " ++ need.nutrient] }
    else
      let allergies := ctx.medical.known_allergies.map pyLower
      match safeOptions allergies food_options with
      | [] =>
        { st with reasoning := st.reasoning ++
            ["All foods for " ++ need.nutrient ++ " conflict with allergies"] }
      | s0 :: srest =>
        let selected_food :=
          (selectFood budget_tier ctx.financials.snap_status st.remaining
            (s0 :: srest)).getD s0
        let best_store := findBestStore ctx.financials.snap_status rm.accessible_stores
        let priority := calculate_priority need.priority budget_tier
        let item : ShoppingListItem :=
          { food := selected_food, quantity := 1, priority := priority,
            reason := "Addresses " ++ need.nutrient ++ ": " ++
              strTake need.reason 80 ++ "...",
            suggested_store := best_store,
            estimated_cost := selected_food.price_estimate,
            nutrients_addressed := [need.nutrient] }
        let already_have :=
          st.items.any (fun ex => selected_food.name = ex.food.name)
        if already_have then
          { st with items := updateFirst st.items selected_food.name need.nutrient }
        else
          { items := st.items ++ [item],
            remaining := st.remaining - selected_food.price_estimate,
            reasoning := st.reasoning ++
              ["Added " ++ selected_food.name ++ " ($" ++
               fmtQ selected_food.price_estimate ++ ") for " ++ need.nutrient ++
               " [Priority " ++ toString need.priority ++ "]"] }

/-- Phase 1 of `generate_shopping_list` (lines 204-228): the free pantry
placeholder items and the RECOMMENDATION line appended directly to
`reasoning_log`.  Fires only for a low/very-low budget tier with at least
one reachable pantry. -/
def pantryPhase (rm : ResourceMap) (budget_tier : String) :
    List ShoppingListItem × List String :=
  if (budget_tier = "very_low" ∨ budget_tier = "low") ∧ rm.food_pantries ≠ [] then
    match rm.food_pantries with
    | [] => ([], [])
    | pantry :: _ =>
      let pantry_items_text :=
        String.intercalate ", " (pantry.store.specialty_items.take 3)
      let recLog :=
        ["RECOMMENDATION: Visit " ++ pantry.store.name ++ " first (FREE). " ++
         "Available: " ++ pantry_items_text ++ ". Hours: " ++ pantry.store.hours]
      let pantry_foods := ["bread", "canned goods", "produce"]
      let pitems :=
        (pantry_foods.filter (fun pf =>
          pantry.store.specialty_items.contains pf ||
            pantry.store.specialty_items.contains "produce")).map fun pf =>
          ({ food := ⟨"Pantry: " ++ pyTitle pf, "pantry", 0, false, false,
               [], "varies", 7⟩,
             quantity := 1, priority := ShoppingPriority.HIGH,
             reason := "Available FREE at food pantry",
             suggested_store := some pantry.store.name,
             estimated_cost := 0, nutrients_addressed := [] } : ShoppingListItem)
      (pitems, recLog)
  else ([], [])

def staplesKeys : List String :=
  ["oats", "brown_rice", "black_beans_canned", "bananas", "peanut_butter"]

/-- Phase 3 of `generate_shopping_list` (lines 324-346): fill remaining
budget with staples, stopping once the remaining budget is ≤ 2. -/
def staplesPhase : List String → PlanState → PlanState
  | [], st => st
  | staple_key :: rest, st =>
    if st.remaining ≤ 2 then st
    else
      match FOOD_DATABASE.lookup staple_key with
      | none => staplesPhase rest st
      | some staple =>
        let already_have := st.items.any (fun item => staple.name = item.food.name)
        if !already_have && decide (staple.price_estimate ≤ st.remaining) then
          staplesPhase rest
            { items := st.items ++
                [{ food := staple, quantity := 1,
                   priority := ShoppingPriority.OPTIONAL,
                   reason := "Budget-friendly staple for general nutrition",
                   suggested_store := none,
                   estimated_cost := staple.price_estimate,
                   nutrients_addressed := [] }],
              remaining := st.remaining - staple.price_estimate,
              reasoning := st.reasoning ++ ["Added staple: " ++ staple.name] }
        else staplesPhase rest st

/-- The grouping of items by suggested store (lines 354-358), as an
insertion-ordered association list. -/
def addVisit (m : List (String × List ShoppingListItem))
    (item : ShoppingListItem) : List (String × List ShoppingListItem) :=
  let store := item.suggested_store.getD "Any Store"
  if m.any (fun kv => kv.1 = store) then
    m.map (fun kv => if kv.1 = store then (kv.1, kv.2 ++ [item]) else kv)
  else m ++ [(store, [item])]

def buildStoreVisits (items : List ShoppingListItem) :
    List (String × List ShoppingListItem) :=
  items.foldl addVisit []

/-- The local `reasoning` list of `generate_shopping_list` as it stands
before the Phase-2 loop (lines 201-206). -/
def initialReasoning (ctx : UserContext) (pl : NutrientPriorityList)
    (rm : ResourceMap) : List String :=
  let budget := ctx.financials.weekly_budget
  let budget_tier := ctx.financials.budget_tier
  let top_needs := get_top_priorities pl 8
  ["Budget tier: " ++ budget_tier ++ " ($" ++ fmtQ budget ++ "/week)",
   "Top " ++ toString top_needs.length ++ " nutrient priorities identified"] ++
    (if (budget_tier = "very_low" ∨ budget_tier = "low") ∧ rm.food_pantries ≠ [] then
      ["LOW BUDGET: Recommending food pantry as primary resource"]
     else [])

/-- The running state of `generate_shopping_list` after the Phase-2 need
loop and the Phase-3 staple fill. -/
def planAfterPhases (ctx : UserContext) (pl : NutrientPriorityList)
    (rm : ResourceMap) : PlanState :=
  staplesPhase staplesKeys
    ((get_top_priorities pl 8).foldl
      (processNeed ctx rm ctx.financials.budget_tier)
      { items := [], remaining := ctx.financials.weekly_budget,
        reasoning := initialReasoning ctx pl rm })

def generate_shopping_list (ctx : UserContext) (pl : NutrientPriorityList)
    (rm : ResourceMap) : ShoppingList :=
  let st2 := planAfterPhases ctx pl rm
  let pantryRes := pantryPhase rm ctx.financials.budget_tier
  { user_id := ctx.user_id,
    items := sortByKey (fun it => it.priority.value) st2.items,
    total_estimated_cost := (st2.items.map (fun i => i.estimated_cost)).sum,
    budget_remaining := st2.remaining, pantry_items := pantryRes.1,
    store_visits := buildStoreVisits st2.items,
    reasoning_log := pantryRes.2 ++ st2.reasoning }

/-! ## Shared lemmas about the stable sort -/

theorem insertKey_perm {α K : Type _} [LinearOrder K] (key : α → K) (x : α)
    (l : List α) : List.Perm (insertKey key x l) (x :: l) := by
  induction l with
  | nil => exact List.Perm.refl _
  | cons y ys ih =>
    unfold insertKey
    split
    · exact (ih.cons y).trans (List.Perm.swap x y ys)
    · exact List.Perm.refl _

theorem sortByKey_perm {α K : Type _} [LinearOrder K] (key : α → K)
    (l : List α) : List.Perm (sortByKey key l) l := by
  induction l with
  | nil => exact List.Perm.refl _
  | cons a l ih =>
    have : sortByKey key (a :: l) = insertKey key a (sortByKey key l) := rfl
    rw [this]
    exact (insertKey_perm key a _).trans (ih.cons a)

theorem insertKey_pairwise {α K : Type _} [LinearOrder K] (key : α → K)
    (x : α) (l : List α) (h : l.Pairwise (fun a b => key a ≤ key b)) :
    (insertKey key x l).Pairwise (fun a b => key a ≤ key b) := by
  induction l with
  | nil => simp [insertKey]
  | cons y ys ih =>
    rw [List.pairwise_cons] at h
    unfold insertKey
    by_cases hlt : key y < key x
    · rw [if_pos hlt]
      refine List.pairwise_cons.2 ⟨?_, ih h.2⟩
      intro z hz
      rcases List.mem_cons.1 ((insertKey_perm key x ys).mem_iff.1 hz) with rfl | hz
      · exact le_of_lt hlt
      · exact h.1 z hz
    · rw [if_neg hlt]
      refine List.pairwise_cons.2 ⟨?_, List.pairwise_cons.2 h⟩
      intro z hz
      rcases List.mem_cons.1 hz with rfl | hz
      · exact le_of_not_lt hlt
      · exact (le_of_not_lt hlt).trans (h.1 z hz)

theorem sortByKey_pairwise {α K : Type _} [LinearOrder K] (key : α → K)
    (l : List α) :
    (sortByKey key l).Pairwise (fun a b => key a ≤ key b) := by
  induction l with
  | nil => simp [sortByKey]
  | cons a l ih => exact insertKey_pairwise key a _ ih

/-! ## Which nutrient each lab rule emits -/

theorem filter_nil_of_ne {l : List NutrientNeed} {s : String}
    (h : ∀ n ∈ l, n.nutrient ≠ s) :
    l.filter (fun n => n.nutrient = s) = [] := by
  rw [List.filter_eq_nil_iff]
  intro a ha
  simpa using h a ha

theorem b12Needs_nutrient {x : Option ℚ} :
    ∀ n ∈ b12Needs x, n.nutrient = "Vitamin B12" := by
  intro n hn
  cases x with
  | none => simp [b12Needs] at hn
  | some lv =>
    simp only [b12Needs] at hn
    split_ifs at hn <;>
      simp only [List.mem_singleton, List.not_mem_nil] at hn <;>
      first
      | exact hn.elim
      | (subst hn; rfl)

theorem vitDNeeds_nutrient {x : Option ℚ} :
    ∀ n ∈ vitDNeeds x, n.nutrient = "Vitamin D" := by
  intro n hn
  cases x with
  | none => simp [vitDNeeds] at hn
  | some lv =>
    simp only [vitDNeeds] at hn
    split_ifs at hn <;>
      simp only [List.mem_singleton, List.not_mem_nil] at hn <;>
      first
      | exact hn.elim
      | (subst hn; rfl)

theorem ironNeeds_nutrient {x : Option ℚ} :
    ∀ n ∈ ironNeeds x, n.nutrient = "Iron" := by
  intro n hn
  cases x with
  | none => simp [ironNeeds] at hn
  | some lv =>
    simp only [ironNeeds] at hn
    split_ifs at hn <;>
      simp only [List.mem_singleton, List.not_mem_nil] at hn <;>
      first
      | exact hn.elim
      | (subst hn; rfl)

theorem crpNeeds_nutrient {x : Option ℚ} :
    ∀ n ∈ crpNeeds x,
      n.nutrient = "Anti-inflammatory Foods" ∨ n.nutrient = "Omega-3 Fatty Acids" := by
  intro n hn
  cases x with
  | none => simp [crpNeeds] at hn
  | some lv =>
    simp only [crpNeeds] at hn
    split_ifs at hn <;>
      simp only [List.mem_cons, List.mem_singleton, List.not_mem_nil, or_false] at hn <;>
      first
      | exact hn.elim
      | (rcases hn with rfl | rfl <;> first | exact Or.inl rfl | exact Or.inr rfl)

theorem homocysteineNeeds_nutrient {x : Option ℚ} :
    ∀ n ∈ homocysteineNeeds x, n.nutrient = "Methylfolate" := by
  intro n hn
  cases x with
  | none => simp [homocysteineNeeds] at hn
  | some lv =>
    simp only [homocysteineNeeds] at hn
    split_ifs at hn <;>
      simp only [List.mem_singleton, List.not_mem_nil] at hn <;>
      first
      | exact hn.elim
      | (subst hn; rfl)

theorem metabolicNeeds_nutrient {lab : LabResults} :
    ∀ n ∈ analyze_metabolic_markers lab,
      n.nutrient = "Fiber" ∨ n.nutrient = "Chromium" := by
  intro n hn
  cases h : lab.glucose_fasting with
  | none => simp [analyze_metabolic_markers, h] at hn
  | some lv =>
    unfold analyze_metabolic_markers at hn
    rw [h] at hn
    simp only at hn
    split_ifs at hn <;>
      simp only [List.mem_cons, List.mem_singleton, List.not_mem_nil, or_false] at hn <;>
      first
      | exact hn.elim
      | (rcases hn with rfl | rfl <;> first | exact Or.inl rfl | exact Or.inr rfl)

/-- Claim C9: the B12 lab-value rule bands.  Proved as stated. -/
theorem b12_rule_bands (lab : LabResults) (level : ℚ)
    (h : lab.vitamin_b12_level = some level) :
    ((analyze_vitamin_levels lab).filter
        (fun n => n.nutrient = "Vitamin B12")).map (fun n => n.priority) =
      if level < 300 then [1] else if level < 500 then [2] else [] := by
  have hd : (vitDNeeds lab.vitamin_d_level).filter
      (fun n => n.nutrient = "Vitamin B12") = [] :=
    filter_nil_of_ne (fun n hn => by rw [vitDNeeds_nutrient n hn]; decide)
  have hi : (ironNeeds lab.iron_level).filter
      (fun n => n.nutrient = "Vitamin B12") = [] :=
    filter_nil_of_ne (fun n hn => by rw [ironNeeds_nutrient n hn]; decide)
  unfold analyze_vitamin_levels
  rw [List.filter_append, List.filter_append, hd, hi, h]
  simp only [b12Needs, ref_b12_low, ref_b12_optimal_low]
  split_ifs <;> simp

/-- A lab record with every field absent. -/
def emptyLab : LabResults :=
  { mthfr_variant := none, comt_variant := none, vitamin_b12_level := none,
    vitamin_d_level := none, iron_level := none, ferritin_level := none,
    crp_level := none, homocysteine_level := none, glucose_fasting := none,
    omega3_index := none }

/-- Witness for `b12_rule_bands`: B12 at 310 pg/mL yields a priority-2 need. -/
theorem b12_rule_bands_witness :
    ((analyze_vitamin_levels { emptyLab with vitamin_b12_level := some 310 }).filter
        (fun n => n.nutrient = "Vitamin B12")).map (fun n => n.priority) = [2] := by
  have h := b12_rule_bands { emptyLab with vitamin_b12_level := some 310 } 310 rfl
  rw [if_neg (by decide), if_pos (by decide)] at h
  exact h

/-- Claim C4 as stated is false: an iron level of 70 mcg/dL lies in the
intermediate band (60 ≤ 70 < 80 against `LAB_REFERENCE_RANGES["iron"]`),
yet `analyze_vitamin_levels` emits no Iron need at all for it. -/
theorem iron_intermediate_band_counterexample :
    ((60:ℚ) ≤ 70 ∧ (70:ℚ) < 80) ∧
      (analyze_vitamin_levels { emptyLab with iron_level := some 70 }).filter
        (fun n => n.nutrient = "Iron") = [] := by
  constructor
  · constructor <;> norm_num
  · decide

/-- Claim C4, amended: the three-band priority pattern (1 in the worst
band, 2 in the intermediate band, none when optimal) holds for vitamin D,
CRP, homocysteine, and fasting glucose, but the iron rule emits a
priority-1 need below 60 mcg/dL and nothing otherwise (its intermediate
band emits no need); CRP in its intermediate band (above 3.0 up to 10.0
mg/L) emits priority-2 needs. -/
theorem lab_rule_bands (lab : LabResults) :
    (∀ lv : ℚ, lab.iron_level = some lv →
      ((analyze_vitamin_levels lab).filter
          (fun n => n.nutrient = "Iron")).map (fun n => n.priority) =
        if lv < 60 then [1] else [])
    ∧ (∀ lv : ℚ, lab.vitamin_d_level = some lv →
      ((analyze_vitamin_levels lab).filter
          (fun n => n.nutrient = "Vitamin D")).map (fun n => n.priority) =
        if lv < 20 then [1] else if lv < 40 then [2] else [])
    ∧ (∀ lv : ℚ, lab.crp_level = some lv →
      ((analyze_inflammation_markers lab).filter
          (fun n => n.nutrient = "Anti-inflammatory Foods")).map (fun n => n.priority) =
        if 10 < lv then [1] else if 3 < lv then [2] else [])
    ∧ (∀ lv : ℚ, lab.homocysteine_level = some lv →
      ((analyze_inflammation_markers lab).filter
          (fun n => n.nutrient = "Methylfolate")).map (fun n => n.priority) =
        if 15 < lv then [1] else if 12 < lv then [2] else [])
    ∧ (∀ lv : ℚ, lab.glucose_fasting = some lv →
      ((analyze_metabolic_markers lab).filter
          (fun n => n.nutrient = "Fiber")).map (fun n => n.priority) =
        if 100 < lv then [if lv < 125 then 2 else 1] else []) := by
  refine ⟨?_, ?_, ?_, ?_, ?_⟩
  · intro lv h
    have hb : (b12Needs lab.vitamin_b12_level).filter
        (fun n => n.nutrient = "Iron") = [] :=
      filter_nil_of_ne (fun n hn => by rw [b12Needs_nutrient n hn]; decide)
    have hd : (vitDNeeds lab.vitamin_d_level).filter
        (fun n => n.nutrient = "Iron") = [] :=
      filter_nil_of_ne (fun n hn => by rw [vitDNeeds_nutrient n hn]; decide)
    unfold analyze_vitamin_levels
    rw [List.filter_append, List.filter_append, hb, hd, h]
    simp only [ironNeeds, ref_iron_low]
    split_ifs <;> simp
  · intro lv h
    have hb : (b12Needs lab.vitamin_b12_level).filter
        (fun n => n.nutrient = "Vitamin D") = [] :=
      filter_nil_of_ne (fun n hn => by rw [b12Needs_nutrient n hn]; decide)
    have hi : (ironNeeds lab.iron_level).filter
        (fun n => n.nutrient = "Vitamin D") = [] :=
      filter_nil_of_ne (fun n hn => by rw [ironNeeds_nutrient n hn]; decide)
    unfold analyze_vitamin_levels
    rw [List.filter_append, List.filter_append, hb, hi, h]
    simp only [vitDNeeds, ref_d_low, ref_d_optimal_low]
    split_ifs <;> simp
  · intro lv h
    have hh : (homocysteineNeeds lab.homocysteine_level).filter
        (fun n => n.nutrient = "Anti-inflammatory Foods") = [] :=
      filter_nil_of_ne (fun n hn => by rw [homocysteineNeeds_nutrient n hn]; decide)
    unfold analyze_inflammation_markers
    rw [List.filter_append, hh, h]
    simp only [crpNeeds, ref_crp_elevated, ref_crp_high, gt_iff_lt]
    split_ifs <;> simp_all
    linarith
  · intro lv h
    have hc : (crpNeeds lab.crp_level).filter
        (fun n => n.nutrient = "Methylfolate") = [] :=
      filter_nil_of_ne (fun n hn => by
        rcases crpNeeds_nutrient n hn with h1 | h1 <;> rw [h1] <;> decide)
    unfold analyze_inflammation_markers
    rw [List.filter_append, hc, h]
    simp only [homocysteineNeeds, ref_homocysteine_elevated, ref_homocysteine_high,
      gt_iff_lt]
    split_ifs <;> simp_all
    linarith
  · intro lv h
    unfold analyze_metabolic_markers
    rw [h]
    simp only [ref_glucose_optimal_high, ref_glucose_prediabetic, gt_iff_lt]
    split_ifs <;> simp_all

/-- Witness for `lab_rule_bands`: concrete levels in each band. -/
theorem lab_rule_bands_witness :
    ((analyze_vitamin_levels { emptyLab with iron_level := some 70 }).filter
        (fun n => n.nutrient = "Iron")).map (fun n => n.priority) = []
    ∧ ((analyze_inflammation_markers { emptyLab with crp_level := some 5 }).filter
        (fun n => n.nutrient = "Anti-inflammatory Foods")).map (fun n => n.priority) = [2] := by
  constructor
  · have h := (lab_rule_bands { emptyLab with iron_level := some 70 }).1 70 rfl
    rw [if_neg (by decide)] at h
    exact h
  · have h := (lab_rule_bands { emptyLab with crp_level := some 5 }).2.2.1 5 rfl
    rw [if_neg (by decide), if_pos (by decide)] at h
    exact h

/-! ## Consolidation merge behaviour (claim C8) -/

/-- Claim C8 as stated is false: two same-nutrient needs of equal priority
consolidate to the first one (markers unioned), with the second entry's
rationale dropped rather than concatenated. -/
theorem consolidation_rationale_counterexample :
    consolidate_nutrient_needs
        [{ nutrient := "X", priority := 2, reason := "r1",
           related_markers := ["m1"], food_sources := [] },
         { nutrient := "X", priority := 2, reason := "r2",
           related_markers := ["m2"], food_sources := [] }] =
      [{ nutrient := "X", priority := 2, reason := "r1",
         related_markers := ["m1", "m2"], food_sources := [] }] := by
  decide

/-- Claim C8, amended: consolidating two needs with the same nutrient name
yields one entry whose priority is the numeric minimum and whose marker
list is the union of both marker lists; the rationale of the second entry
is concatenated onto the kept rationale only when the second entry has a
strictly lower (more urgent) priority, and is dropped otherwise. -/
theorem consolidation_merge (a b : NutrientNeed) (h : a.nutrient = b.nutrient) :
    ∃ m, consolidate_nutrient_needs [a, b] = [m]
      ∧ m.nutrient = a.nutrient
      ∧ m.priority = min a.priority b.priority
      ∧ (∀ x, x ∈ m.related_markers ↔
          x ∈ a.related_markers ∨ x ∈ b.related_markers)
      ∧ m.reason =
          (if b.priority < a.priority then b.reason ++ "; Also: " ++ a.reason
           else a.reason) := by
  have hstep : consolidate_nutrient_needs [a, b] = consolidateStep [a] b := by
    simp [consolidate_nutrient_needs, consolidateStep]
  rw [hstep]
  unfold consolidateStep
  rw [if_pos (by simp [h])]
  simp only [List.map_cons, List.map_nil]
  rw [if_pos h]
  by_cases hp : b.priority < a.priority
  · rw [if_pos hp]
    refine ⟨_, rfl, h.symm, ?_, ?_, ?_⟩
    · rw [min_eq_right (le_of_lt hp)]
    · intro x
      simp [List.mem_dedup]
    · rw [if_pos hp]
  · rw [if_neg hp]
    refine ⟨_, rfl, rfl, ?_, ?_, ?_⟩
    · rw [min_eq_left (le_of_not_lt hp)]
    · intro x
      simp [List.mem_dedup]
    · rw [if_neg hp]

/-- Witness for `consolidation_merge` at two concrete needs. -/
theorem consolidation_merge_witness :
    ∃ m, consolidate_nutrient_needs
        [{ nutrient := "Y", priority := 3, reason := "s1",
           related_markers := ["k1"], food_sources := [] },
         { nutrient := "Y", priority := 1, reason := "s2",
           related_markers := ["k2"], food_sources := ["f"] }] = [m]
      ∧ m.reason = "s2; Also: s1" := by
  obtain ⟨m, hm, -, -, -, hr⟩ := consolidation_merge
    { nutrient := "Y", priority := 3, reason := "s1",
      related_markers := ["k1"], food_sources := [] }
    { nutrient := "Y", priority := 1, reason := "s2",
      related_markers := ["k2"], food_sources := ["f"] } rfl
  refine ⟨m, hm, ?_⟩
  rw [hr, if_pos (by decide)]
  rfl

/-! ## Ferritin / omega-3 noninterference (claim C10) -/

/-- Claim C10: two profiles that differ only in the lab record's
`ferritin_level` and `omega3_index` fields produce identical
`NutrientPriorityList`s — those two biomarkers never influence the
analyzer's output. -/
theorem ferritin_omega3_noninterference (ctx : UserContext) (lab : LabResults)
    (f1 o1 f2 o2 : Option ℚ) :
    analyze_lab_data
        { ctx with lab_results := some { lab with ferritin_level := f1, omega3_index := o1 } } =
      analyze_lab_data
        { ctx with lab_results := some { lab with ferritin_level := f2, omega3_index := o2 } } := rfl

/-! ## Consolidation invariants (claim C2) -/

/-- Asserts that `e.priority` is the numerically lowest priority among the entries of
`L` sharing `e`'s nutrient name, and is attained by one of them. -/
def MinFor (L : List NutrientNeed) (e : NutrientNeed) : Prop :=
  (∀ m ∈ L, m.nutrient = e.nutrient → e.priority ≤ m.priority) ∧
    ∃ m ∈ L, m.nutrient = e.nutrient ∧ m.priority = e.priority

theorem consolidateStep_map_nutrient {m : List NutrientNeed}
    {need : NutrientNeed} (hA : m.any (fun e => e.nutrient = need.nutrient) = true) :
    (consolidateStep m need).map (fun e => e.nutrient) =
      m.map (fun e => e.nutrient) := by
  unfold consolidateStep
  rw [if_pos hA, List.map_map]
  apply List.map_congr_left
  intro e _
  by_cases hnu : e.nutrient = need.nutrient
  · simp only [Function.comp_apply, if_pos hnu]
    split_ifs <;> simp [hnu]
  · simp [Function.comp_apply, if_neg hnu]

theorem consolidate_fold_inv (L : List NutrientNeed) :
    ∀ P m : List NutrientNeed,
      (m.map (fun e => e.nutrient)).Pairwise (· ≠ ·) →
      (∀ e ∈ m, MinFor P e) →
      (∀ p ∈ P, ∃ e ∈ m, e.nutrient = p.nutrient) →
      ((L.foldl consolidateStep m).map (fun e => e.nutrient)).Pairwise (· ≠ ·)
      ∧ (∀ e ∈ L.foldl consolidateStep m, MinFor (P ++ L) e)
      ∧ ∀ p ∈ P ++ L, ∃ e ∈ L.foldl consolidateStep m, e.nutrient = p.nutrient := by
  induction L with
  | nil =>
    intro P m h1 h2 h3
    simpa using ⟨h1, h2, h3⟩
  | cons need rest ih =>
    intro P m h1 h2 h3
    by_cases hA : m.any (fun e => e.nutrient = need.nutrient) = true
    · -- an entry for this nutrient already exists: the map is updated in place
      have h1' : ((consolidateStep m need).map (fun e => e.nutrient)).Pairwise (· ≠ ·) := by
        rw [consolidateStep_map_nutrient hA]; exact h1
      have hmem : ∀ e' ∈ consolidateStep m need, MinFor (P ++ [need]) e' := by
        intro e' he'
        unfold consolidateStep at he'
        rw [if_pos hA] at he'
        obtain ⟨e, hem, rfl⟩ := List.mem_map.1 he'
        by_cases hnu : e.nutrient = need.nutrient
        · rw [if_pos hnu]
          by_cases hp : need.priority < e.priority
          · rw [if_pos hp]
            constructor
            · intro m' hm' hm'nut
              rcases List.mem_append.1 hm' with hP | hn
              · have hm'e : m'.nutrient = e.nutrient := by
                  rw [hm'nut, hnu]
                exact le_of_lt (lt_of_lt_of_le hp ((h2 e hem).1 m' hP hm'e))
              · rw [List.mem_singleton.1 hn]
            · exact ⟨need, List.mem_append_right _ (List.mem_singleton.2 rfl), rfl, rfl⟩
          · rw [if_neg hp]
            constructor
            · intro m' hm' hm'nut
              rcases List.mem_append.1 hm' with hP | hn
              · exact (h2 e hem).1 m' hP hm'nut
              · rw [List.mem_singleton.1 hn] at hm'nut ⊢
                have : e.priority ≤ need.priority := le_of_not_lt hp
                exact this
            · obtain ⟨m0, hm0, hm0nut, hm0pr⟩ := (h2 e hem).2
              exact ⟨m0, List.mem_append_left _ hm0, hm0nut, hm0pr⟩
        · rw [if_neg hnu]
          constructor
          · intro m' hm' hm'nut
            rcases List.mem_append.1 hm' with hP | hn
            · exact (h2 e hem).1 m' hP hm'nut
            · rw [List.mem_singleton.1 hn] at hm'nut
              exact absurd hm'nut.symm hnu
          · obtain ⟨m0, hm0, hm0nut, hm0pr⟩ := (h2 e hem).2
            exact ⟨m0, List.mem_append_left _ hm0, hm0nut, hm0pr⟩
      have hcov : ∀ p ∈ P ++ [need],
          ∃ e' ∈ consolidateStep m need, e'.nutrient = p.nutrient := by
        intro p hp
        unfold consolidateStep
        rw [if_pos hA]
        rcases List.mem_append.1 hp with hP | hn
        · obtain ⟨e, hem, henut⟩ := h3 p hP
          refine ⟨_, List.mem_map_of_mem _ hem, ?_⟩
          by_cases hnu : e.nutrient = need.nutrient <;> split_ifs <;> simp_all
        · rw [List.mem_singleton.1 hn]
          obtain ⟨e0, he0m, he0⟩ := List.any_eq_true.1 hA
          have he0' : e0.nutrient = need.nutrient := of_decide_eq_true he0
          refine ⟨_, List.mem_map_of_mem _ he0m, ?_⟩
          rw [if_pos he0']
          split_ifs <;> simp [he0']
      have hres := ih (P ++ [need]) (consolidateStep m need) h1' hmem hcov
      rw [List.append_assoc, List.singleton_append] at hres
      exact hres
    · -- new nutrient: appended at the end of the map
      have hstep : consolidateStep m need = m ++ [need] := by
        unfold consolidateStep
        rw [if_neg hA]
      have hnotin : ∀ e ∈ m, e.nutrient ≠ need.nutrient := by
        intro e hem heq
        exact hA (List.any_eq_true.2 ⟨e, hem, decide_eq_true heq⟩)
      have h1' : ((consolidateStep m need).map (fun e => e.nutrient)).Pairwise (· ≠ ·) := by
        rw [hstep, List.map_append]
        rw [List.pairwise_append]
        refine ⟨h1, by simp, ?_⟩
        intro a ha b hb
        obtain ⟨e, hem, rfl⟩ := List.mem_map.1 ha
        simp only [List.map_cons, List.map_nil, List.mem_singleton] at hb
        rw [hb]
        exact hnotin e hem
      have hmem : ∀ e' ∈ consolidateStep m need, MinFor (P ++ [need]) e' := by
        intro e' he'
        rw [hstep] at he'
        rcases List.mem_append.1 he' with hem | hn
        · constructor
          · intro m' hm' hm'nut
            rcases List.mem_append.1 hm' with hP | hn'
            · exact (h2 e' hem).1 m' hP hm'nut
            · rw [List.mem_singleton.1 hn'] at hm'nut
              exact absurd hm'nut.symm (hnotin e' hem)
          · obtain ⟨m0, hm0, hm0nut, hm0pr⟩ := (h2 e' hem).2
            exact ⟨m0, List.mem_append_left _ hm0, hm0nut, hm0pr⟩
        · rw [List.mem_singleton.1 hn]
          constructor
          · intro m' hm' hm'nut
            rcases List.mem_append.1 hm' with hP | hn'
            · obtain ⟨e, hem, henut⟩ := h3 m' hP
              exact absurd (henut.trans hm'nut) (hnotin e hem)
            · rw [List.mem_singleton.1 hn']
          · exact ⟨need, List.mem_append_right _ (List.mem_singleton.2 rfl), rfl, rfl⟩
      have hcov : ∀ p ∈ P ++ [need],
          ∃ e' ∈ consolidateStep m need, e'.nutrient = p.nutrient := by
        intro p hp
        rw [hstep]
        rcases List.mem_append.1 hp with hP | hn
        · obtain ⟨e, hem, henut⟩ := h3 p hP
          exact ⟨e, List.mem_append_left _ hem, henut⟩
        · rw [List.mem_singleton.1 hn]
          exact ⟨need, List.mem_append_right _ (List.mem_singleton.2 rfl), rfl⟩
      have hres := ih (P ++ [need]) (consolidateStep m need) h1' hmem hcov
      rw [List.append_assoc, List.singleton_append] at hres
      exact hres

/-- Claim C2: in every consolidated `NeedList`, nutrient names are unique,
each entry carries the numerically lowest priority among the
pre-consolidation needs (`collectNeeds`) for its nutrient name, and the
list is sorted by non-decreasing priority. -/
theorem needlist_unique_min_sorted (ctx : UserContext) :
    (((analyze_lab_data ctx).needs.map (fun n => n.nutrient)).Pairwise (· ≠ ·))
    ∧ (∀ e ∈ (analyze_lab_data ctx).needs, MinFor (collectNeeds ctx) e)
    ∧ ((analyze_lab_data ctx).needs.Pairwise (fun a b => a.priority ≤ b.priority)) := by
  have base := consolidate_fold_inv (collectNeeds ctx) [] []
    (by simp) (by intro e he; simp at he) (by intro p hp; simp at hp)
  rw [List.nil_append] at base
  have hconsol : consolidate_nutrient_needs (collectNeeds ctx) =
      (collectNeeds ctx).foldl consolidateStep [] := rfl
  have hneeds : (analyze_lab_data ctx).needs =
      sortByKey (fun n => n.priority)
        (consolidate_nutrient_needs (collectNeeds ctx)) := rfl
  have hperm := sortByKey_perm (fun n : NutrientNeed => n.priority)
    (consolidate_nutrient_needs (collectNeeds ctx))
  refine ⟨?_, ?_, ?_⟩
  · rw [hneeds]
    have hmapperm := hperm.map (fun n : NutrientNeed => n.nutrient)
    refine (hmapperm.pairwise_iff ?_).2 ?_
    · intro a b hab
      exact hab.symm
    · rw [hconsol]
      exact base.1
  · intro e he
    rw [hneeds] at he
    have hmem : e ∈ consolidate_nutrient_needs (collectNeeds ctx) := hperm.subset he
    rw [hconsol] at hmem
    exact base.2.1 e hmem
  · rw [hneeds]
    exact sortByKey_pairwise _ _

/-- Witness for `needlist_unique_min_sorted` at a concrete profile. -/
theorem needlist_unique_min_sorted_witness :
    (((analyze_lab_data
        { user_id := "w2", name := "w",
          financials := { weekly_budget := 60, snap_status := false, wic_status := false },
          logistics := { zip_code := "00000", has_vehicle := false, has_public_transit := false,
                         grocery_trips_per_week := 1, max_travel_distance_miles := 2 },
          medical := { family_history := ["diabetes"], previous_conditions := [],
                       current_symptoms := ["fatigue"], known_allergies := [],
                       medications := [] },
          lab_results := some { emptyLab with vitamin_b12_level := some 280 } }).needs.map
      (fun n => n.nutrient)).Pairwise (· ≠ ·)) := by
  exact (needlist_unique_min_sorted _).1

/-! ## Budget accounting of the plan builder (claim C1) -/

theorem updateFirst_map_cost (l : List ShoppingListItem) (nm nutrient : String) :
    (updateFirst l nm nutrient).map (fun i => i.estimated_cost) =
      l.map (fun i => i.estimated_cost) := by
  induction l with
  | nil => rfl
  | cons ex rest ih =>
    unfold updateFirst
    by_cases hnm : ex.food.name = nm
    · rw [if_pos hnm]
      split_ifs <;> simp
    · rw [if_neg hnm]
      simp [ih]

theorem updateFirst_map_name (l : List ShoppingListItem) (nm nutrient : String) :
    (updateFirst l nm nutrient).map (fun i => i.food.name) =
      l.map (fun i => i.food.name) := by
  induction l with
  | nil => rfl
  | cons ex rest ih =>
    unfold updateFirst
    by_cases hnm : ex.food.name = nm
    · rw [if_pos hnm]
      split_ifs <;> simp
    · rw [if_neg hnm]
      simp [ih]

theorem processNeed_budget (ctx : UserContext) (rm : ResourceMap)
    (tier : String) (st : PlanState) (need : NutrientNeed) (B : ℚ)
    (h : st.remaining = B - (st.items.map (fun i => i.estimated_cost)).sum) :
    (processNeed ctx rm tier st need).remaining =
      B - (((processNeed ctx rm tier st need).items.map
        (fun i => i.estimated_cost)).sum) := by
  unfold processNeed
  dsimp only
  split
  · exact h
  · split
    · exact h
    · split
      · exact h
      · split
        · simp only [updateFirst_map_cost]
          exact h
        · simp only [List.map_append, List.sum_append, List.map_cons,
            List.map_nil, List.sum_cons, List.sum_nil]
          rw [h]
          ring

theorem foldl_processNeed_budget (ctx : UserContext) (rm : ResourceMap)
    (tier : String) (needs : List NutrientNeed) :
    ∀ (st : PlanState) (B : ℚ),
      st.remaining = B - (st.items.map (fun i => i.estimated_cost)).sum →
      (needs.foldl (processNeed ctx rm tier) st).remaining =
        B - (((needs.foldl (processNeed ctx rm tier) st).items.map
          (fun i => i.estimated_cost)).sum) := by
  induction needs with
  | nil => intro st B h; exact h
  | cons need rest ih =>
    intro st B h
    exact ih (processNeed ctx rm tier st need) B
      (processNeed_budget ctx rm tier st need B h)

theorem staplesPhase_budget (keys : List String) :
    ∀ (st : PlanState) (B : ℚ),
      st.remaining = B - (st.items.map (fun i => i.estimated_cost)).sum →
      (staplesPhase keys st).remaining =
        B - (((staplesPhase keys st).items.map
          (fun i => i.estimated_cost)).sum) := by
  induction keys with
  | nil => intro st B h; exact h
  | cons staple_key rest ih =>
    intro st B h
    unfold staplesPhase
    dsimp only
    split
    · exact h
    · split
      · exact ih st B h
      · split
        · apply ih
          simp only [List.map_append, List.sum_append, List.map_cons,
            List.map_nil, List.sum_cons, List.sum_nil]
          rw [h]
          ring
        · exact ih st B h

/-- Claim C1: in every generated `ShoppingList`, `total_estimated_cost`
equals the sum of `estimated_cost` over `items` (pantry items excluded),
and `budget_remaining` equals the weekly budget minus
`total_estimated_cost`. -/
theorem plan_budget_identity (ctx : UserContext) (pl : NutrientPriorityList)
    (rm : ResourceMap) :
    (generate_shopping_list ctx pl rm).total_estimated_cost =
      (((generate_shopping_list ctx pl rm).items.map
        (fun i => i.estimated_cost)).sum)
    ∧ (generate_shopping_list ctx pl rm).budget_remaining =
      ctx.financials.weekly_budget -
        (generate_shopping_list ctx pl rm).total_estimated_cost := by
  have hsorted :
      ((sortByKey (fun it : ShoppingListItem => it.priority.value)
          (planAfterPhases ctx pl rm).items).map (fun i => i.estimated_cost)).sum =
        ((planAfterPhases ctx pl rm).items.map (fun i => i.estimated_cost)).sum :=
    ((sortByKey_perm _ _).map _).sum_eq
  constructor
  · exact hsorted.symm
  · show (planAfterPhases ctx pl rm).remaining =
      ctx.financials.weekly_budget -
        ((planAfterPhases ctx pl rm).items.map (fun i => i.estimated_cost)).sum
    unfold planAfterPhases
    apply staplesPhase_budget
    apply foldl_processNeed_budget
    simp

/-! ## Deduplication by food name (claim C5) -/

theorem processNeed_names (ctx : UserContext) (rm : ResourceMap)
    (tier : String) (st : PlanState) (need : NutrientNeed)
    (h : (st.items.map (fun i => i.food.name)).Pairwise (· ≠ ·)) :
    ((processNeed ctx rm tier st need).items.map
      (fun i => i.food.name)).Pairwise (· ≠ ·) := by
  unfold processNeed
  dsimp only
  split
  · exact h
  · split
    · exact h
    · split
      · exact h
      · split
        · rw [updateFirst_map_name]
          exact h
        · rename_i hnotdup
          rw [List.map_append, List.pairwise_append]
          refine ⟨h, by simp, ?_⟩
          intro a ha b hb
          obtain ⟨it, hit, rfl⟩ := List.mem_map.1 ha
          simp only [List.map_cons, List.map_nil, List.mem_singleton] at hb
          rw [hb]
          intro hcontra
          exact hnotdup (List.any_eq_true.2 ⟨it, hit, decide_eq_true hcontra.symm⟩)

theorem foldl_processNeed_names (ctx : UserContext) (rm : ResourceMap)
    (tier : String) (needs : List NutrientNeed) :
    ∀ st : PlanState,
      (st.items.map (fun i => i.food.name)).Pairwise (· ≠ ·) →
      ((needs.foldl (processNeed ctx rm tier) st).items.map
        (fun i => i.food.name)).Pairwise (· ≠ ·) := by
  induction needs with
  | nil => intro st h; exact h
  | cons need rest ih =>
    intro st h
    exact ih _ (processNeed_names ctx rm tier st need h)

theorem staplesPhase_names (keys : List String) :
    ∀ st : PlanState,
      (st.items.map (fun i => i.food.name)).Pairwise (· ≠ ·) →
      ((staplesPhase keys st).items.map (fun i => i.food.name)).Pairwise (· ≠ ·) := by
  induction keys with
  | nil => intro st h; exact h
  | cons staple_key rest ih =>
    intro st h
    unfold staplesPhase
    dsimp only
    split
    · exact h
    · split
      · exact ih st h
      · split
        · rename_i staple heq hguard
          apply ih
          rw [List.map_append, List.pairwise_append]
          refine ⟨h, by simp, ?_⟩
          intro a ha b hb
          obtain ⟨it, hit, rfl⟩ := List.mem_map.1 ha
          simp only [List.map_cons, List.map_nil, List.mem_singleton] at hb
          rw [hb]
          intro hcontra
          have hnotdup : (st.items.any fun item => staple.name = item.food.name) = false := by
            have hg := hguard
            rw [Bool.and_eq_true] at hg
            have hna := hg.1
            rwa [Bool.not_eq_true'] at hna
          have : (st.items.any fun item => staple.name = item.food.name) = true :=
            List.any_eq_true.2 ⟨it, hit, decide_eq_true hcontra.symm⟩
          rw [hnotdup] at this
          cases this
        · exact ih st h

theorem updateFirst_spec (l : List ShoppingListItem) (nm nutrient : String)
    (hdist : (l.map (fun i => i.food.name)).Pairwise (· ≠ ·))
    (ex : ShoppingListItem) (hex : ex ∈ l) (hexn : ex.food.name = nm) :
    ∃ it ∈ updateFirst l nm nutrient, it.food.name = nm ∧
      nutrient ∈ it.nutrients_addressed ∧
      ∀ x ∈ ex.nutrients_addressed, x ∈ it.nutrients_addressed := by
  induction l with
  | nil => cases hex
  | cons hd rest ih =>
    unfold updateFirst
    by_cases hnm : hd.food.name = nm
    · rw [if_pos hnm]
      have hdist' := hdist
      rw [List.map_cons] at hdist'
      have hpc := List.pairwise_cons.1 hdist'
      have hexhd : ex = hd := by
        rcases List.mem_cons.1 hex with rfl | hmem
        · rfl
        · exfalso
          exact hpc.1 ex.food.name (List.mem_map_of_mem _ hmem)
            (hnm.trans hexn.symm)
      subst hexhd
      by_cases hmemn : nutrient ∈ ex.nutrients_addressed
      · rw [if_pos hmemn]
        exact ⟨ex, List.mem_cons_self _ _, hnm, hmemn, fun x hx => hx⟩
      · rw [if_neg hmemn]
        refine ⟨_, List.mem_cons_self _ _, hnm, ?_, ?_⟩
        · simp
        · intro x hx
          simp [hx]
    · rw [if_neg hnm]
      have hexr : ex ∈ rest := by
        rcases List.mem_cons.1 hex with rfl | hmem
        · exact absurd hexn hnm
        · exact hmem
      have hdist' := hdist
      rw [List.map_cons] at hdist'
      obtain ⟨it, hit, h1, h2, h3⟩ := ih (List.pairwise_cons.1 hdist').2 hexr
      exact ⟨it, List.mem_cons_of_mem _ hit, h1, h2, h3⟩

/-- Claim C5: every generated shopping list holds at most one item per food
name, and when the Phase-2 loop resolves a need to a food that is already
on the list it merges the need into that item's `nutrients_addressed`
instead of adding a new line. -/
theorem plan_dedup_merge :
    (∀ (ctx : UserContext) (pl : NutrientPriorityList) (rm : ResourceMap),
      ((generate_shopping_list ctx pl rm).items.map
        (fun i => i.food.name)).Pairwise (· ≠ ·))
    ∧ (∀ (ctx : UserContext) (rm : ResourceMap) (tier : String)
        (st : PlanState) (need : NutrientNeed) (F : FoodItem)
        (ex : ShoppingListItem),
        selectedFoodFor ctx tier st.remaining need = some F →
        ex ∈ st.items → ex.food.name = F.name →
        (st.items.map (fun i => i.food.name)).Pairwise (· ≠ ·) →
        ((processNeed ctx rm tier st need).items.map (fun i => i.food.name) =
          st.items.map (fun i => i.food.name))
        ∧ ∃ it ∈ (processNeed ctx rm tier st need).items,
            it.food.name = F.name ∧ need.nutrient ∈ it.nutrients_addressed ∧
            ∀ x ∈ ex.nutrients_addressed, x ∈ it.nutrients_addressed) := by
  constructor
  · intro ctx pl rm
    show ((sortByKey (fun it : ShoppingListItem => it.priority.value)
        (planAfterPhases ctx pl rm).items).map (fun i => i.food.name)).Pairwise (· ≠ ·)
    have hperm := (sortByKey_perm (fun it : ShoppingListItem => it.priority.value)
      (planAfterPhases ctx pl rm).items).map (fun i => i.food.name)
    refine (hperm.pairwise_iff ?_).2 ?_
    · intro a b hab
      exact hab.symm
    unfold planAfterPhases
    apply staplesPhase_names
    apply foldl_processNeed_names
    simp
  · intro ctx rm tier st need F ex hsel hex hexn hdist
    unfold selectedFoodFor at hsel
    unfold processNeed
    dsimp only at hsel ⊢
    by_cases h1 : st.remaining ≤ 0
    · rw [if_pos h1] at hsel
      exact absurd hsel (by simp)
    · rw [if_neg h1] at hsel ⊢
      by_cases h2 : (get_foods_for_nutrient need.nutrient).isEmpty = true
      · rw [if_pos h2] at hsel
        exact absurd hsel (by simp)
      · rw [if_neg h2] at hsel ⊢
        cases hso : safeOptions (List.map pyLower ctx.medical.known_allergies)
            (get_foods_for_nutrient need.nutrient) with
        | nil =>
          rw [hso] at hsel
          exact absurd hsel (by simp)
        | cons s0 srest =>
          rw [hso] at hsel
          dsimp only at hsel ⊢
          injection hsel with hF
          rw [hF]
          have hah : (st.items.any fun ex' => F.name = ex'.food.name) = true :=
            List.any_eq_true.2 ⟨ex, hex, decide_eq_true hexn.symm⟩
          rw [if_pos hah]
          exact ⟨updateFirst_map_name _ _ _,
            updateFirst_spec st.items F.name need.nutrient hdist ex hex hexn⟩

/-- The canned-sardines catalog entry, used by concrete witnesses. -/
def sardinesFood : FoodItem :=
  { name := "Sardines (canned)", category := "canned", price_estimate := 2,
    snap_eligible := true, wic_eligible := false,
    nutrients_provided := ["Vitamin B12", "Vitamin D", "Omega-3 Fatty Acids"],
    serving_size := "4 oz can", shelf_life_days := 1095 }

def wMergeItem : ShoppingListItem :=
  { food := sardinesFood, quantity := 1, priority := ShoppingPriority.HIGH,
    reason := "", suggested_store := none, estimated_cost := 2,
    nutrients_addressed := ["Omega-3 Fatty Acids"] }

def wMergeState : PlanState :=
  { items := [wMergeItem], remaining := 60, reasoning := [] }

def wMergeNeed : NutrientNeed :=
  { nutrient := "Vitamin D", priority := 2, reason := "",
    related_markers := [], food_sources := [] }

def wMergeCtx : UserContext :=
  { user_id := "w5", name := "w",
    financials := { weekly_budget := 150, snap_status := false, wic_status := false },
    logistics := { zip_code := "00000", has_vehicle := false,
                   has_public_transit := false, grocery_trips_per_week := 1,
                   max_travel_distance_miles := 2 },
    medical := { family_history := [], previous_conditions := [],
                 current_symptoms := [], known_allergies := [], medications := [] },
    lab_results := none }

def wMergeRm : ResourceMap :=
  { user_zip := "z", accessible_stores := [], food_pantries := [],
    snap_stores := [], all_stores := [] }

/-- Witness for `plan_dedup_merge`: a Vitamin-D need resolving to the
sardines already on the list is merged into the existing item. -/
theorem plan_dedup_merge_witness :
    ((processNeed wMergeCtx wMergeRm "moderate" wMergeState wMergeNeed).items.map
        (fun i => i.food.name) =
      wMergeState.items.map (fun i => i.food.name))
    ∧ ∃ it ∈ (processNeed wMergeCtx wMergeRm "moderate" wMergeState wMergeNeed).items,
        it.food.name = sardinesFood.name ∧
        wMergeNeed.nutrient ∈ it.nutrients_addressed ∧
        ∀ x ∈ wMergeItem.nutrients_addressed, x ∈ it.nutrients_addressed := by
  exact plan_dedup_merge.2 wMergeCtx wMergeRm "moderate" wMergeState wMergeNeed
    sardinesFood wMergeItem (by rfl) (by simp [wMergeState]) (by rfl) (by simp [wMergeState])

/-! ## Allergy filtering in the plan builder (claim C3) -/

theorem applyBudgetAlt_id (tier : String) (food : FoodItem)
    (h1 : tier ≠ "very_low") (h2 : tier ≠ "low") :
    applyBudgetAlt tier food = food := by
  unfold applyBudgetAlt
  rw [if_neg]
  rintro ⟨hor, -⟩
  rcases hor with h | h
  · exact h1 h
  · exact h2 h

theorem selectFood_mem (tier : String) (snap : Bool) (remaining : ℚ)
    (l : List FoodItem) (F : FoodItem)
    (hid : ∀ f ∈ l, applyBudgetAlt tier f = f)
    (h : selectFood tier snap remaining l = some F) : F ∈ l := by
  induction l with
  | nil => cases h
  | cons f rest ih =>
    unfold selectFood at h
    dsimp only at h
    rw [hid f (List.mem_cons_self _ _)] at h
    split_ifs at h
    · exact List.mem_cons_of_mem _ (ih (fun g hg => hid g (List.mem_cons_of_mem _ hg)) h)
    · rw [List.mem_cons]
      left
      exact (Option.some_inj.1 h).symm
    · exact List.mem_cons_of_mem _ (ih (fun g hg => hid g (List.mem_cons_of_mem _ hg)) h)

theorem mem_safeOptions_no_allergen {allergies : List String}
    {foods : List FoodItem} {F : FoodItem}
    (h : F ∈ safeOptions allergies foods) :
    allergies.all (fun a => !(containsSub a (pyLower F.name))) = true := by
  have hp := (List.mem_filter.1 h).2
  rw [Bool.not_eq_true'] at hp
  rw [List.all_eq_true]
  intro a ha
  rw [Bool.not_eq_true']
  by_contra hcon
  have : containsSub a (pyLower F.name) = true := by
    cases hval : containsSub a (pyLower F.name)
    · exact absurd hval hcon
    · rfl
  exact absurd (List.any_eq_true.2 ⟨a, ha, this⟩) (by rw [hp]; simp)

/-- Claim C3, amended: candidate foods whose names contain an allergen
substring are dropped before selection, and a need all of whose candidates
conflict with an allergy produces no item; when the budget tier is neither
"very_low" nor "low" the selected food always comes from the
allergen-filtered candidates (so its name contains no allergen substring).
A budget-tier substitute, however, replaces the candidate after the
allergen filter and is not re-checked against the allergy list. -/
theorem allergy_filter_behaviour :
    (∀ (ctx : UserContext) (tier : String) (remaining : ℚ)
        (need : NutrientNeed) (F : FoodItem),
      tier ≠ "very_low" → tier ≠ "low" →
      selectedFoodFor ctx tier remaining need = some F →
      (ctx.medical.known_allergies.map pyLower).all
        (fun a => !(containsSub a (pyLower F.name))) = true)
    ∧ (∀ (ctx : UserContext) (rm : ResourceMap) (tier : String)
        (st : PlanState) (need : NutrientNeed),
      safeOptions (ctx.medical.known_allergies.map pyLower)
        (get_foods_for_nutrient need.nutrient) = [] →
      (processNeed ctx rm tier st need).items = st.items) := by
  constructor
  · intro ctx tier remaining need F hv hl hsel
    unfold selectedFoodFor at hsel
    dsimp only at hsel
    by_cases h1 : remaining ≤ 0
    · rw [if_pos h1] at hsel
      exact absurd hsel (by simp)
    · rw [if_neg h1] at hsel
      by_cases h2 : (get_foods_for_nutrient need.nutrient).isEmpty = true
      · rw [if_pos h2] at hsel
        exact absurd hsel (by simp)
      · rw [if_neg h2] at hsel
        cases hso : safeOptions (List.map pyLower ctx.medical.known_allergies)
            (get_foods_for_nutrient need.nutrient) with
        | nil =>
          rw [hso] at hsel
          exact absurd hsel (by simp)
        | cons s0 srest =>
          rw [hso] at hsel
          dsimp only at hsel
          injection hsel with hF
          have hFmem : F ∈ safeOptions (List.map pyLower ctx.medical.known_allergies)
              (get_foods_for_nutrient need.nutrient) := by
            rw [hso]
            cases hsf : selectFood tier ctx.financials.snap_status remaining (s0 :: srest) with
            | none =>
              rw [hsf] at hF
              simp only [Option.getD_none] at hF
              rw [← hF]
              exact List.mem_cons_self _ _
            | some F' =>
              rw [hsf] at hF
              simp only [Option.getD_some] at hF
              rw [← hF]
              exact selectFood_mem tier ctx.financials.snap_status remaining _ F'
                (fun f _ => applyBudgetAlt_id tier f hv hl) hsf
          exact mem_safeOptions_no_allergen hFmem
  · intro ctx rm tier st need hso
    unfold processNeed
    dsimp only
    by_cases h1 : st.remaining ≤ 0
    · rw [if_pos h1]
    · rw [if_neg h1]
      by_cases h2 : (get_foods_for_nutrient need.nutrient).isEmpty = true
      · rw [if_pos h2]
      · rw [if_neg h2, hso]

/-- Profile with a "sardines" allergy, a low budget tier, and one omega-3
need; the pantry-free resource map keeps Phase 1 inert. -/
def ctxAllergy : UserContext :=
  { user_id := "c3", name := "c",
    financials := { weekly_budget := 60, snap_status := false, wic_status := false },
    logistics := { zip_code := "00000", has_vehicle := false,
                   has_public_transit := false, grocery_trips_per_week := 1,
                   max_travel_distance_miles := 2 },
    medical := { family_history := [], previous_conditions := [],
                 current_symptoms := [], known_allergies := ["sardines"],
                 medications := [] },
    lab_results := none }

def npOmega : NutrientPriorityList :=
  { user_id := "c3",
    needs := [{ nutrient := "Omega-3 Fatty Acids", priority := 1, reason := "r",
                related_markers := [], food_sources := [] }],
    warnings := [] }

def rmEmpty : ResourceMap :=
  { user_zip := "z", accessible_stores := [], food_pantries := [],
    snap_stores := [], all_stores := [] }

/-- Claim C3 as stated is false: with a "sardines" allergy and a low
budget tier, the safe candidate "Salmon (canned)" is replaced by its
budget substitute "Sardines (canned)" after the allergy filter, so the
generated list contains an item whose name contains the allergen. -/
theorem allergy_substitution_counterexample :
    ((generate_shopping_list ctxAllergy npOmega rmEmpty).items.any (fun it =>
      ctxAllergy.medical.known_allergies.any
        (fun a => containsSub (pyLower a) (pyLower it.food.name)))) = true := by
  decide

def wAllergyCtx : UserContext :=
  { ctxAllergy with
    financials := { weekly_budget := 150, snap_status := false, wic_status := false },
    medical := { family_history := [], previous_conditions := [],
                 current_symptoms := [], known_allergies := ["salmon"],
                 medications := [] } }

def wBlockedNeed : NutrientNeed :=
  { nutrient := "Anti-inflammatory Foods", priority := 2, reason := "",
    related_markers := [], food_sources := [] }

def wBlockedCtx : UserContext :=
  { ctxAllergy with
    medical := { family_history := [], previous_conditions := [],
                 current_symptoms := [],
                 known_allergies := ["spinach", "broccoli", "kale", "turmeric",
                                     "ginger", "berries", "olive"],
                 medications := [] } }

/-- Witness for `allergy_filter_behaviour`: a moderate-tier selection
avoids the "salmon" allergen, and a need whose candidates are all
allergen-blocked adds no item. -/
theorem allergy_filter_behaviour_witness :
    ((wAllergyCtx.medical.known_allergies.map pyLower).all
      (fun a => !(containsSub a (pyLower sardinesFood.name))) = true)
    ∧ (processNeed wBlockedCtx rmEmpty "low"
        { items := [], remaining := 40, reasoning := [] } wBlockedNeed).items = [] := by
  constructor
  · exact allergy_filter_behaviour.1 wAllergyCtx "moderate" 150
      { nutrient := "Omega-3 Fatty Acids", priority := 1, reason := "",
        related_markers := [], food_sources := [] }
      sardinesFood (by decide) (by decide) (by rfl)
  · exact allergy_filter_behaviour.2 wBlockedCtx rmEmpty "low"
      { items := [], remaining := 40, reasoning := [] } wBlockedNeed (by rfl)

/-! ## Pantry placeholder items (claim C7) -/

/-- Very-low-budget profile for the pantry scenario. -/
def ctxPantry : UserContext :=
  { ctxAllergy with
    financials := { weekly_budget := 40, snap_status := false, wic_status := false },
    medical := { family_history := [], previous_conditions := [],
                 current_symptoms := [], known_allergies := [], medications := [] } }

def pantryOnlyStore : Store :=
  { name := "P", store_type := StoreType.FOOD_PANTRY, distance_miles := 1,
    snap_accepted := false, wic_accepted := false,
    inventory_level := InventoryLevel.MEDIUM, price_tier := 1,
    specialty_items := ["produce"], hours := "h" }

def pantryOnlyTf : TravelFeasibility :=
  { store := pantryOnlyStore, is_accessible := true, travel_method := "walk",
    estimated_time_minutes := 10, accessibility_score := 1, notes := [] }

def rmPantry : ResourceMap :=
  { user_zip := "z", accessible_stores := [], food_pantries := [pantryOnlyTf],
    snap_stores := [], all_stores := [] }

/-- Claim C7 as stated is false: with specialty tags `["produce"]`, the
staple "bread" is not in the pantry's tags, yet a zero-cost placeholder
"Pantry: Bread" is appended (the source also fires whenever "produce" is
tagged). -/
theorem pantry_staples_counterexample :
    (pantryOnlyStore.specialty_items.contains "bread" = false)
    ∧ ((generate_shopping_list ctxPantry npOmega rmPantry).pantry_items.map
        (fun i => i.food.name)) =
      ["Pantry: Bread", "Pantry: Canned Goods", "Pantry: Produce"] := by
  constructor
  · decide
  · decide

/-- Claim C7, amended: for a low/very-low budget tier with at least one
reachable pantry, a zero-cost placeholder for a staple from the fixed set
is appended if and only if that staple name is in the top pantry's
specialty tags or "produce" is in those tags; every pantry placeholder has
estimated cost 0. -/
theorem pantry_staples_rule (ctx : UserContext) (pl : NutrientPriorityList)
    (rm : ResourceMap) (pantry : TravelFeasibility)
    (rest : List TravelFeasibility) (staple : String)
    (htier : ctx.financials.budget_tier = "very_low" ∨
      ctx.financials.budget_tier = "low")
    (hp : rm.food_pantries = pantry :: rest)
    (hs : staple ∈ ["bread", "canned goods", "produce"]) :
    ((∃ it ∈ (generate_shopping_list ctx pl rm).pantry_items,
        it.food.name = "Pantry: " ++ pyTitle staple)
      ↔ (pantry.store.specialty_items.contains staple ||
          pantry.store.specialty_items.contains "produce") = true)
    ∧ ∀ it ∈ (generate_shopping_list ctx pl rm).pantry_items,
        it.estimated_cost = 0 := by
  have hpi : (generate_shopping_list ctx pl rm).pantry_items =
      (pantryPhase rm ctx.financials.budget_tier).1 := rfl
  have hcond : (ctx.financials.budget_tier = "very_low" ∨
      ctx.financials.budget_tier = "low") ∧ rm.food_pantries ≠ [] := by
    refine ⟨htier, ?_⟩
    rw [hp]
    exact List.cons_ne_nil _ _
  have hphase : (pantryPhase rm ctx.financials.budget_tier).1 =
      ((["bread", "canned goods", "produce"].filter (fun pf =>
          pantry.store.specialty_items.contains pf ||
            pantry.store.specialty_items.contains "produce")).map fun pf =>
        ({ food := ⟨"Pantry: " ++ pyTitle pf, "pantry", 0, false, false,
             [], "varies", 7⟩,
           quantity := 1, priority := ShoppingPriority.HIGH,
           reason := "Available FREE at food pantry",
           suggested_store := some pantry.store.name,
           estimated_cost := 0, nutrients_addressed := [] } : ShoppingListItem)) := by
    unfold pantryPhase
    rw [if_pos hcond, hp]
  rw [hpi, hphase]
  constructor
  · have hinj : ∀ pf ∈ ["bread", "canned goods", "produce"],
        ("Pantry: " ++ pyTitle pf) = ("Pantry: " ++ pyTitle staple) → pf = staple := by
      have hs' : staple = "bread" ∨ staple = "canned goods" ∨ staple = "produce" := by
        simpa using hs
      rcases hs' with rfl | rfl | rfl <;> decide
    constructor
    · rintro ⟨it, hit, hname⟩
      obtain ⟨pf, hpf, rfl⟩ := List.mem_map.1 hit
      have hpf' := List.mem_filter.1 hpf
      have : pf = staple := hinj pf hpf'.1 hname
      rw [← this]
      exact hpf'.2
    · intro hcond'
      refine ⟨_, List.mem_map_of_mem _ (List.mem_filter.2 ⟨hs, hcond'⟩), rfl⟩
  · intro it hit
    obtain ⟨pf, -, rfl⟩ := List.mem_map.1 hit
    rfl

/-- Witness for `pantry_staples_rule`: with tags `["produce"]`, the
"produce" placeholder is present. -/
theorem pantry_staples_rule_witness :
    ∃ it ∈ (generate_shopping_list ctxPantry npOmega rmPantry).pantry_items,
      it.food.name = "Pantry: " ++ pyTitle "produce" := by
  refine ((pantry_staples_rule ctxPantry npOmega rmPantry pantryOnlyTf []
    "produce" (Or.inl (by decide)) (by decide) (by decide)).1).2 ?_
  decide

/-! ## Reachability monotonicity (claim C6) -/

theorem pyTrunc_le_of_le {q : ℚ} {n : ℤ} (hn : 0 ≤ n) (h : q ≤ (n : ℚ)) :
    pyTrunc q ≤ n := by
  unfold pyTrunc
  split_ifs with h0
  · have hf := Int.floor_mono h
    rwa [Int.floor_intCast] at hf
  · push_neg at h0
    have h2 : (0:ℚ) ≤ -q := by linarith
    have h3 : 0 ≤ ⌊-q⌋ := Int.floor_nonneg.2 h2
    omega

theorem travel_time_walk (d : ℚ) :
    calculate_travel_time d "walk" = pyTrunc (d / 3 * 60 + 5) := rfl

theorem travel_time_transit (d : ℚ) :
    calculate_travel_time d "transit" = pyTrunc (d / 12 * 60 + 10) := rfl

theorem travel_time_drive (d : ℚ) :
    calculate_travel_time d "drive" = pyTrunc (d / 25 * 60) := rfl

theorem ctf_is_accessible (store : Store) (lg : Logistics) :
    (calculate_travel_feasibility store lg).is_accessible =
      (if calculate_travel_time store.distance_miles (fallbackCheck store lg).1 > 45
       then (fallbackCheck store lg).2.1 && decide (lg.grocery_trips_per_week ≥ 2)
       else (fallbackCheck store lg).2.1) := rfl

/-- Increasing only `max_travel_distance_miles` never turns an accessible
store inaccessible (the core of claim C6). -/
theorem calc_feasibility_mono (store : Store) (lg : Logistics) (d2 : ℚ)
    (hle : lg.max_travel_distance_miles ≤ d2)
    (hacc : (calculate_travel_feasibility store lg).is_accessible = true) :
    (calculate_travel_feasibility store
      { lg with max_travel_distance_miles := d2 }).is_accessible = true := by
  obtain ⟨zip, veh, transit, trips, mx⟩ := lg
  rw [ctf_is_accessible] at hacc ⊢
  dsimp only at hle hacc ⊢
  by_cases h1 : store.distance_miles ≤ mx
  · have e1 : fallbackCheck store ⟨zip, veh, transit, trips, mx⟩ =
        ((preferredMethod ⟨zip, veh, transit, trips, mx⟩).1, true, []) := by
      unfold fallbackCheck
      rw [if_pos h1]
    have e2 : fallbackCheck store ⟨zip, veh, transit, trips, d2⟩ =
        ((preferredMethod ⟨zip, veh, transit, trips, mx⟩).1, true, []) := by
      unfold fallbackCheck
      rw [if_pos (le_trans h1 hle)]
      rfl
    rw [e2]
    rw [e1] at hacc
    exact hacc
  · by_cases h2 : store.distance_miles ≤ d2
    · have e2 : fallbackCheck store ⟨zip, veh, transit, trips, d2⟩ =
          ((preferredMethod ⟨zip, veh, transit, trips, mx⟩).1, true, []) := by
        unfold fallbackCheck
        rw [if_pos h2]
        rfl
      rw [e2]
      by_cases hw : store.distance_miles ≤ 2
      · have e1 : fallbackCheck store ⟨zip, veh, transit, trips, mx⟩ =
            ("walk", true, ["Walking distance"]) := by
          unfold fallbackCheck
          rw [if_neg h1, if_pos hw]
        rw [e1] at hacc
        cases veh with
        | true =>
          have hpm : (preferredMethod ⟨zip, true, transit, trips, mx⟩).1 = "drive" := rfl
          rw [hpm, travel_time_drive]
          rw [if_neg (not_lt.2 (pyTrunc_le_of_le (by norm_num) (by linarith)))]
        | false =>
          cases transit with
          | true =>
            have hpm : (preferredMethod ⟨zip, false, true, trips, mx⟩).1 = "transit" := rfl
            rw [hpm, travel_time_transit]
            rw [if_neg (not_lt.2 (pyTrunc_le_of_le (by norm_num) (by linarith)))]
          | false =>
            have hpm : (preferredMethod ⟨zip, false, false, trips, mx⟩).1 = "walk" := rfl
            rw [hpm]
            exact hacc
      · by_cases ht8 : store.distance_miles ≤ 8 ∧ transit = true
        · have e1 : fallbackCheck store ⟨zip, veh, transit, trips, mx⟩ =
              ("transit", true, ["Accessible via public transit"]) := by
            unfold fallbackCheck
            rw [if_neg h1, if_neg hw, if_pos ht8]
          rw [e1] at hacc
          cases veh with
          | true =>
            have hpm : (preferredMethod ⟨zip, true, transit, trips, mx⟩).1 = "drive" := rfl
            rw [hpm, travel_time_drive]
            rw [if_neg (not_lt.2 (pyTrunc_le_of_le (by norm_num) (by linarith [ht8.1])))]
          | false =>
            cases transit with
            | false => exact absurd ht8.2 (by simp)
            | true =>
              have hpm : (preferredMethod ⟨zip, false, true, trips, mx⟩).1 = "transit" := rfl
              rw [hpm]
              exact hacc
        · have e1 : fallbackCheck store ⟨zip, veh, transit, trips, mx⟩ =
              ((preferredMethod ⟨zip, veh, transit, trips, mx⟩).1, false, []) := by
            unfold fallbackCheck
            rw [if_neg h1, if_neg hw, if_neg ht8]
          rw [e1] at hacc
          exfalso
          by_cases hT : calculate_travel_time store.distance_miles
              (preferredMethod ⟨zip, veh, transit, trips, mx⟩).1 > 45
          · rw [if_pos hT] at hacc
            simp at hacc
          · rw [if_neg hT] at hacc
            exact absurd hacc (by simp)
    · have same : fallbackCheck store ⟨zip, veh, transit, trips, d2⟩ =
          fallbackCheck store ⟨zip, veh, transit, trips, mx⟩ := by
        unfold fallbackCheck
        rw [if_neg (fun hcon => h2 hcon), if_neg h1]
        rfl
      rw [same]
      exact hacc

/-- Claim C6: reachability is monotone in the profile's max travel
distance, both for a single store's feasibility verdict and for
membership of the resource locator's accessible-store set. -/
theorem reachability_monotone :
    (∀ (store : Store) (lg : Logistics) (d2 : ℚ),
      lg.max_travel_distance_miles ≤ d2 →
      (calculate_travel_feasibility store lg).is_accessible = true →
      (calculate_travel_feasibility store
        { lg with max_travel_distance_miles := d2 }).is_accessible = true)
    ∧ (∀ (ctx : UserContext) (d2 : ℚ) (s : Store),
      ctx.logistics.max_travel_distance_miles ≤ d2 →
      (∃ tf ∈ (resource_locator ctx).accessible_stores, tf.store = s) →
      ∃ tf ∈ (resource_locator { ctx with logistics :=
          { ctx.logistics with max_travel_distance_miles := d2 } }).accessible_stores,
        tf.store = s) := by
  constructor
  · exact calc_feasibility_mono
  · intro ctx d2 s hle hmem
    obtain ⟨tf, htf, hstore⟩ := hmem
    have hacc_eq : (resource_locator ctx).accessible_stores =
        sortByKey accessKey (((get_stores_for_zip ctx.logistics.zip_code).map
          (fun st => calculate_travel_feasibility st ctx.logistics)).filter
          (fun f => f.is_accessible)) := rfl
    rw [hacc_eq] at htf
    have htf2 := (sortByKey_perm accessKey _).subset htf
    have hmf := List.mem_filter.1 htf2
    obtain ⟨s', hs', heq⟩ := List.mem_map.1 hmf.1
    have haccb : (calculate_travel_feasibility s' ctx.logistics).is_accessible = true := by
      rw [heq]
      exact hmf.2
    have hs'eq : s' = s := by
      rw [← hstore, ← heq]
      rfl
    subst hs'eq
    refine ⟨calculate_travel_feasibility s'
      { ctx.logistics with max_travel_distance_miles := d2 }, ?_, rfl⟩
    have hacc2 := calc_feasibility_mono s' ctx.logistics d2 hle haccb
    have hacc_eq2 : (resource_locator { ctx with logistics :=
        { ctx.logistics with max_travel_distance_miles := d2 } }).accessible_stores =
        sortByKey accessKey (((get_stores_for_zip ctx.logistics.zip_code).map
          (fun st => calculate_travel_feasibility st
            { ctx.logistics with max_travel_distance_miles := d2 })).filter
          (fun f => f.is_accessible)) := rfl
    rw [hacc_eq2]
    apply (sortByKey_perm accessKey _).symm.subset
    exact List.mem_filter.2 ⟨List.mem_map_of_mem _ hs', hacc2⟩

def wStoreC6 : Store :=
  { name := "W6", store_type := StoreType.GROCERY, distance_miles := mkRat 6 5,
    snap_accepted := true, wic_accepted := false,
    inventory_level := InventoryLevel.HIGH, price_tier := 2,
    specialty_items := [], hours := "h" }

def wLgC6 : Logistics :=
  { zip_code := "0", has_vehicle := false, has_public_transit := false,
    grocery_trips_per_week := 1, max_travel_distance_miles := 2 }

/-- Witness for `reachability_monotone` at a concrete store and profile. -/
theorem reachability_monotone_witness :
    (calculate_travel_feasibility wStoreC6
      { wLgC6 with max_travel_distance_miles := 5 }).is_accessible = true := by
  exact reachability_monotone.1 wStoreC6 wLgC6 5 (by decide) (by decide)

end Nutrition
